import Mathlib

/-!
Shallow embedding of the comparison batch allocation and vote ingestion
subsystem of mc-bench-backend, translated from
src/mc_bench/apps/api/routers/comparison.py (functions get_comparison_batch
and post_comparison) and src/mc_bench/apps/api/lifespan.py.

Database rows are embedded as Lean structures, the Redis cache as an
association list from structured keys to (value, absolute expiry time)
entries, and each endpoint as a pure function from an environment, a
request and a state to a result, the successor state and a trace of the
storage and cache operations it performed, in program order.
-/

/-- Row of the test_set table, as used by the router (id and name). -/
structure TestSetRow where
  id : Nat
  name : String
deriving DecidableEq

/-- Row of the user table, as used by the router: primary key, external id
and the permission scopes attached to the user. -/
structure UserRow where
  id : Nat
  external_id : String
  scopes : List String
deriving DecidableEq

/-- Row of the metric table, as used by the router. -/
structure MetricRow where
  id : Nat
  external_id : String
deriving DecidableEq

/-- Row of the sample table, as used by the router; model_name embeds the
sample.run.model.name join used to build the vote response. -/
structure SampleRow where
  id : Nat
  comparison_sample_id : String
  test_set_id : Option Nat
  model_name : String
deriving DecidableEq

/-- Durable Comparison ledger row created by post_comparison. -/
structure ComparisonRow where
  id : Nat
  user_id : Option Nat
  metric_id : Nat
  test_set_id : Option Nat
  session_id : Nat
  identification_token_id : Nat
deriving DecidableEq

/-- Durable ComparisonRank ledger row created by post_comparison. -/
structure ComparisonRankRow where
  comparison_id : Nat
  sample_id : Nat
  rank : Nat
deriving DecidableEq

/-- Reference data visible to the router through the SQLAlchemy session. -/
structure Db where
  test_sets : List TestSetRow
  users : List UserRow
  metrics : List MetricRow
  samples : List SampleRow
deriving DecidableEq

/-- Key of the Redis COMPARISON database. The source builds string keys
with the disjoint literal formats f-string active_comparison:token and the
fixed literal elo_calculation_in_progress, so the key space is embedded as
a structured sum, which the prefix scheme makes injective. -/
inductive CacheKey
  | activeComparison (token : String)
  | eloLock
deriving DecidableEq

/-- A cache entry: stored string value plus absolute expiry instant.
The entry is live at instants strictly before expiresAt. -/
structure CacheEntry where
  value : String
  expiresAt : Nat
deriving DecidableEq

/-- The Redis database state: an association list with at most one live
entry per key (maintained by cacheSetEx removing older entries). -/
abbrev Cache := List (CacheKey × CacheEntry)

/-- Redis GET restricted to live entries: an entry whose TTL has elapsed
behaves as absent. -/
def cacheGet (c : Cache) (now : Nat) (k : CacheKey) : Option String :=
  match c.find? (fun e => e.1 == k) with
  | some (_, e) => if now < e.expiresAt then some e.value else none
  | none => none

/-- Redis SETEX key ttl value: stores value under key, expiring ttl
seconds from now, replacing any previous entry for the key. -/
def cacheSetEx (c : Cache) (now ttl : Nat) (k : CacheKey) (v : String) : Cache :=
  (k, ⟨v, now + ttl⟩) :: c.filter (fun e => !(e.1 == k))

/-- Redis GETDEL key: atomically returns the live value (if any) and
removes the key. -/
def cacheGetDel (c : Cache) (now : Nat) (k : CacheKey) : Option String × Cache :=
  (cacheGet c now k, c.filter (fun e => !(e.1 == k)))

/-- Redis SET key value EX ttl NX: stores only when the key has no live
value; returns whether the set happened. -/
def cacheSetNx (c : Cache) (now ttl : Nat) (k : CacheKey) (v : String) : Bool × Cache :=
  match cacheGet c now k with
  | some _ => (false, c)
  | none => (true, cacheSetEx c now ttl k v)

/-- Serialization of the token value written by get_comparison_batch:
the f-string metric.external_id:sample_1_id:sample_2_id. -/
def mkTokenValue (m a b : String) : String :=
  m ++ ":" ++ a ++ ":" ++ b

/-- Split a character list at the first colon, like Python
str.split(colon, 1); none when no colon occurs. -/
def split1 : List Char → Option (List Char × List Char)
  | [] => none
  | c :: rest =>
    if c = ':' then some ([], rest)
    else
      match split1 rest with
      | some (a, b) => some (c :: a, b)
      | none => none

/-- Parse of the token value performed by post_comparison: two successive
maxsplit-1 splits on the colon; none embeds the ValueError raised by tuple
unpacking when a split yields a single part. -/
def parseTokenValue (s : String) : Option (String × String × String) :=
  match split1 s.data with
  | none => none
  | some (m, rest) =>
    match split1 rest with
    | none => none
    | some (a, b) => some (String.mk m, String.mk a, String.mk b)

/-- Trace event: one storage, cache or job-queue operation performed by an
endpoint, recorded in program order. -/
inductive Event
  | dbSelectTestSetId (name : String)
  | dbSelectUser (external_id : String)
  | dbSelectUsers (external_id : String)
  | sessionHeaders
  | dbSelectMetric (external_id : String)
  | dbExecutePrepared (queryName : String) (test_set_id : Nat) (sample_count : Nat)
  | dbAvgVotes (test_set_id : Nat)
  | dbSelectSamples (id1 : String) (id2 : String)
  | dbAddComparison
  | dbFlush
  | dbAddComparisonRank
  | redisSetEx (key : CacheKey) (ttl : Nat)
  | redisGetDel (key : CacheKey)
  | redisSetNx (key : CacheKey) (ttl : Nat)
  | enqueueTask (name : String)
deriving DecidableEq

/-- Whether an event is a database access (a query or write through the
SQLAlchemy session, including the session-header processing which reads
and writes session rows). -/
def Event.isDbQuery : Event → Bool
  | .dbSelectTestSetId _ => true
  | .dbSelectUser _ => true
  | .dbSelectUsers _ => true
  | .sessionHeaders => true
  | .dbSelectMetric _ => true
  | .dbExecutePrepared _ _ _ => true
  | .dbAvgVotes _ => true
  | .dbSelectSamples _ _ => true
  | .dbAddComparison => true
  | .dbFlush => true
  | .dbAddComparisonRank => true
  | .redisSetEx _ _ => false
  | .redisGetDel _ => false
  | .redisSetNx _ _ => false
  | .enqueueTask _ => false

/-- Outcome of a failed request: either an HTTPException raised by the
handler (status code and detail) or an uncaught Python exception, which
the framework surfaces as a generic internal server error. -/
inductive ApiError
  | http (status : Nat) (detail : String)
  | python (exc : String)
deriving DecidableEq

deriving instance DecidableEq for Except

/-- The settings the two endpoints read. -/
structure Settings where
  USE_PRIORITY_COMPARISON : Bool
  EXTERNAL_OBJECT_BUCKET : String

/-- Maximum batch size constant from the router module. -/
def MAX_BATCH_SIZE : Nat := 10

/-- Modelled from the spec: the request body of RequestComparisonBatch,
carrying metric_id and batch_size (the transport type
NewComparisonBatchRequest is not among the provided sources; spec section 6
gives its two fields). -/
structure NewComparisonBatchRequest where
  metric_id : String
  batch_size : Nat
deriving DecidableEq

/-- One file reference inside an asset of the batch response. -/
structure AssetFile where
  kind : String
  bucket : String
  key : String
deriving DecidableEq

/-- One asset entry of the batch response. -/
structure Asset where
  sample_id : String
  files : List AssetFile
deriving DecidableEq

/-- One issued comparison of the batch response. -/
structure BatchPair where
  token : String
  metric_id : String
  samples : List String
  build_description : String
  assets : List Asset
deriving DecidableEq

/-- The batch response body. -/
structure BatchResponse where
  comparisons : List BatchPair
deriving DecidableEq

/-- A result row of a prepared comparison batch query, as the list of its
column values (5 columns for the standard query, 11 for priority). -/
abbrev Row := List String

/-- Environment of get_comparison_batch: settings, the database contents,
the optional authenticated user id, the current instant, the uuid4 stream
used for token minting (one fresh token per minted pair, indexed by mint
order) and the outcome of executing each named prepared statement. -/
structure BatchEnv where
  settings : Settings
  db : Db
  user_id : Option String
  now : Nat
  tokens : Nat → String
  queryResult : String → Except Unit (List Row)

/-- Lookup of a test set id by exact name, embedding
db.scalar(select(TestSet.id).where(TestSet.name == name)). -/
def findTestSetId (db : Db) (name : String) : Option Nat :=
  (db.test_sets.find? (fun t => t.name == name)).map (fun t => t.id)

/-- Lookup of a metric row by external id, embedding
db.scalar(select(Metric).where(Metric.external_id == mid)). -/
def findMetric (db : Db) (mid : String) : Option MetricRow :=
  db.metrics.find? (fun m => m.external_id == mid)

/-- The per-row loop of get_comparison_batch (source lines 148 to 235):
extracts the common columns, skips malformed priority rows, mints and
stores a token with TTL 3600 for each valid pair, and accumulates the
response entries. idx counts the tokens minted so far. An out-of-range
column access embeds the uncaught IndexError. -/
def processRows (env : BatchEnv) (metric : MetricRow) (test_set_id : Nat) :
    List Row → Nat → Cache → List Event → List BatchPair →
    Except ApiError BatchResponse × Cache × List Event
  | [], _, cache, ev, acc => (.ok ⟨acc.reverse⟩, cache, ev)
  | row :: rest, idx, cache, ev, acc =>
    if row.length < 5 then
      (.error (.python "IndexError"), cache, ev)
    else
      let sample_1_id := row.getD 0 ""
      let sample_1_key := row.getD 1 ""
      let sample_2_id := row.getD 2 ""
      let sample_2_key := row.getD 3 ""
      let build_specification := row.getD 4 ""
      if env.settings.USE_PRIORITY_COMPARISON && row.length < 11 then
        processRows env metric test_set_id rest idx cache ev acc
      else
        let ev := if env.settings.USE_PRIORITY_COMPARISON
                  then ev ++ [Event.dbAvgVotes test_set_id]
                  else ev
        let token := env.tokens idx
        let key := CacheKey.activeComparison token
        let value := mkTokenValue metric.external_id sample_1_id sample_2_id
        let cache := cacheSetEx cache env.now 3600 key value
        let ev := ev ++ [Event.redisSetEx key 3600]
        let assets : List Asset :=
          [⟨sample_1_id, [⟨"gltf_scene", env.settings.EXTERNAL_OBJECT_BUCKET, sample_1_key⟩]⟩,
           ⟨sample_2_id, [⟨"gltf_scene", env.settings.EXTERNAL_OBJECT_BUCKET, sample_2_key⟩]⟩]
        let pair : BatchPair :=
          ⟨token, metric.external_id, [sample_1_id, sample_2_id], build_specification, assets⟩
        processRows env metric test_set_id rest (idx + 1) cache ev (pair :: acc)

/-- Continuation of get_comparison_batch after the test set and user have
been resolved (source lines 103 to 238): batch size gate, metric lookup,
prepared statement execution, then the per-row loop. -/
def batchAfterAuth (env : BatchEnv) (request : NewComparisonBatchRequest)
    (cache : Cache) (test_set_id : Nat) (ev : List Event) :
    Except ApiError BatchResponse × Cache × List Event :=
  if request.batch_size > MAX_BATCH_SIZE then
    (.error (.http 406 "Invalid batch size"), cache, ev)
  else
    let ev := ev ++ [Event.dbSelectMetric request.metric_id]
    match findMetric env.db request.metric_id with
    | none => (.error (.http 400 "Invalid metric id"), cache, ev)
    | some metric =>
      let query_name := if env.settings.USE_PRIORITY_COMPARISON
                        then "comparison_batch_query_priority"
                        else "comparison_batch_query"
      let ev := ev ++ [Event.dbExecutePrepared query_name test_set_id request.batch_size]
      match env.queryResult query_name with
      | .error _ =>
        (.error (.http 500 ("Failed to retrieve comparison batch using \x27" ++ query_name ++ "\x27")),
         cache, ev)
      | .ok sample_data =>
        processRows env metric test_set_id sample_data 0 cache ev []

/-- The POST /api/comparison/batch handler (source lines 70 to 238).
Returns the response or error, the cache state after the request, and the
trace of storage and cache operations in program order. -/
def get_comparison_batch (env : BatchEnv) (request : NewComparisonBatchRequest)
    (cache : Cache) : Except ApiError BatchResponse × Cache × List Event :=
  match env.user_id with
  | none =>
    let ev := [Event.dbSelectTestSetId "Unauthenticated Test Set"]
    match findTestSetId env.db "Unauthenticated Test Set" with
    | none => (.error (.http 500 "Default unauthenticated test set not found"), cache, ev)
    | some test_set_id =>
      batchAfterAuth env request cache test_set_id (ev ++ [Event.sessionHeaders])
  | some uid =>
    let ev := [Event.dbSelectTestSetId "Authenticated Test Set"]
    match findTestSetId env.db "Authenticated Test Set" with
    | none => (.error (.http 500 "Default authenticated test set not found"), cache, ev)
    | some test_set_id =>
      let ev := ev ++ [Event.dbSelectUser uid]
      match env.db.users.find? (fun u => u.external_id == uid) with
      | none => (.error (.http 404 "Authenticated user not found"), cache, ev)
      | some _user =>
        batchAfterAuth env request cache test_set_id (ev ++ [Event.sessionHeaders])

/-- Modelled from the spec: the voting permission scope required of
authenticated callers (mc_bench.auth.permissions PERM.VOTING.VOTE is not
among the provided sources; spec section 4.3 names a voting permission
scope). -/
def PERM_VOTING_VOTE : String := "voting:vote"

/-- One position of the caller ranking: a single sample id or a tie-group
list of sample ids. -/
inductive RankEntry
  | single (id : String)
  | group (ids : List String)
deriving DecidableEq

/-- Modelled from the spec: the request body of SubmitComparisonVote,
carrying the token and the ordered sample ids (the transport type
UserComparisonRequest is not among the provided sources; spec section 6
gives its two fields). -/
structure UserComparisonRequest where
  token : String
  ordered_sample_ids : List RankEntry
deriving DecidableEq

/-- The vote response body: the owning model names of both samples. -/
structure VoteResponse where
  sample_1_model : String
  sample_2_model : String
deriving DecidableEq

/-- Mutable state touched by post_comparison: the Redis cache, the durable
Comparison and ComparisonRank ledgers, the enqueued job names, and the
next primary key the database would assign to a Comparison row at flush. -/
structure VoteState where
  cache : Cache
  comparisons : List ComparisonRow
  comparison_ranks : List ComparisonRankRow
  jobs : List String
  next_comparison_id : Nat
deriving DecidableEq

/-- Environment of post_comparison: database contents, optional
authenticated user id, current instant, and the session and
identification ids produced by the session-header processing. -/
structure VoteEnv where
  db : Db
  user_uuid : Option String
  now : Nat
  session_id : Nat
  identification_token_id : Nat
deriving DecidableEq

/-- The dict comprehension building sample_lookup (source line 284): for
duplicate comparison_sample_id values the later element wins. -/
def buildSampleLookup (samples : List SampleRow) (k : String) : Option SampleRow :=
  samples.foldl (fun acc s => if s.comparison_sample_id == k then some s else acc) none

/-- Inner loop of the ranking expansion for a tie-group (source lines 292
to 294): every member receives the group position rank; a member absent
from the lookup embeds the uncaught KeyError. -/
def expandGroup (lookup : String → Option SampleRow) (rank : Nat) :
    List String → Except ApiError (List (Nat × SampleRow))
  | [] => .ok []
  | sid :: rest =>
    match lookup sid with
    | none => .error (.python "KeyError")
    | some s =>
      match expandGroup lookup rank rest with
      | .error e => .error e
      | .ok tl => .ok ((rank, s) :: tl)

/-- The ranking expansion loop of post_comparison (source lines 288 to
296): rank is the 1-based position index; a tie-group assigns its position
rank to all members. idx is the 0-based enumerate counter. -/
def expandRanks (lookup : String → Option SampleRow) :
    List RankEntry → Nat → Except ApiError (List (Nat × SampleRow))
  | [], _ => .ok []
  | .single sid :: rest, idx =>
    match lookup sid with
    | none => .error (.python "KeyError")
    | some s =>
      match expandRanks lookup rest (idx + 1) with
      | .error e => .error e
      | .ok tl => .ok ((idx + 1, s) :: tl)
  | .group sids :: rest, idx =>
    match expandGroup lookup (idx + 1) sids with
    | .error e => .error e
    | .ok hd =>
      match expandRanks lookup rest (idx + 1) with
      | .error e => .error e
      | .ok tl => .ok (hd ++ tl)

/-- Python truthiness of the Optional[int] test_set_id attribute: falsy
when None or zero. -/
def truthyOptNat : Option Nat → Bool
  | none => false
  | some n => n != 0

/-- Test set derivation of post_comparison (source lines 305 to 309): the
first truthy test_set_id of the two samples wins, else None. -/
def deriveTestSet (sample_1 sample_2 : SampleRow) : Option Nat :=
  if truthyOptNat sample_1.test_set_id then sample_1.test_set_id
  else if truthyOptNat sample_2.test_set_id then sample_2.test_set_id
  else none

/-- Resolution of the two bound samples (source lines 276 to 284): the
select over both comparison_sample_id values followed by the dict
comprehension. -/
def pairLookup (db : Db) (a b : String) : String → Option SampleRow :=
  buildSampleLookup (db.samples.filter
    (fun s => s.comparison_sample_id == a || s.comparison_sample_id == b))

/-- Continuation of post_comparison after user resolution and session
processing (source lines 266 to 345): atomic token get-and-delete, token
parse, sample resolution, ranking expansion, metric lookup, test set
derivation, the eligibility-gated ledger write with the debounced ELO
recomputation trigger, and the model-name response. -/
def postAfterAuth (env : VoteEnv) (request : UserComparisonRequest)
    (st : VoteState) (user : Option UserRow) (can_vote : Bool) (ev : List Event) :
    Except ApiError VoteResponse × VoteState × List Event :=
  let key := CacheKey.activeComparison request.token
  let ev := ev ++ [Event.redisGetDel key]
  let gd := cacheGetDel st.cache env.now key
  let st := { st with cache := gd.2 }
  match gd.1 with
  | none => (.error (.http 404 "No active comparisons found"), st, ev)
  | some v =>
    if v = "" then (.error (.http 404 "No active comparisons found"), st, ev)
    else
      match parseTokenValue v with
      | none => (.error (.python "ValueError"), st, ev)
      | some (metric_id, sample_1_id, sample_2_id) =>
        let ev := ev ++ [Event.dbSelectSamples sample_1_id sample_2_id]
        let lookup := pairLookup env.db sample_1_id sample_2_id
        match lookup sample_1_id with
        | none => (.error (.python "KeyError"), st, ev)
        | some sample_1 =>
          match lookup sample_2_id with
          | none => (.error (.python "KeyError"), st, ev)
          | some sample_2 =>
            match expandRanks lookup request.ordered_sample_ids 0 with
            | .error e => (.error e, st, ev)
            | .ok ranks =>
              let ev := ev ++ [Event.dbSelectMetric metric_id]
              let metric := findMetric env.db metric_id
              let test_set_id : Option Nat := deriveTestSet sample_1 sample_2
              let resp : VoteResponse := ⟨sample_1.model_name, sample_2.model_name⟩
              if can_vote then
                match metric with
                | none => (.error (.python "AttributeError"), st, ev)
                | some m =>
                  let cid := st.next_comparison_id
                  let comparison : ComparisonRow :=
                    ⟨cid, user.map (fun u => u.id), m.id, test_set_id,
                     env.session_id, env.identification_token_id⟩
                  let newRanks := ranks.map (fun p => ComparisonRankRow.mk cid p.2.id p.1)
                  let st := { st with
                    comparisons := st.comparisons ++ [comparison],
                    comparison_ranks := st.comparison_ranks ++ newRanks,
                    next_comparison_id := cid + 1 }
                  let ev := ev ++ [Event.dbAddComparison, Event.dbFlush]
                              ++ newRanks.map (fun _ => Event.dbAddComparisonRank)
                  let sn := cacheSetNx st.cache env.now 300 CacheKey.eloLock "1"
                  let st := { st with cache := sn.2 }
                  let ev := ev ++ [Event.redisSetNx CacheKey.eloLock 300]
                  if sn.1 then
                    (.ok resp, { st with jobs := st.jobs ++ ["elo_calculation"] },
                     ev ++ [Event.enqueueTask "elo_calculation"])
                  else
                    (.ok resp, st, ev)
              else
                (.ok resp, st, ev)

/-- The POST /api/comparison/result handler (source lines 241 to 345).
For an authenticated caller the user row is resolved with one(), which
raises when zero or several rows match, and can_vote is whether the user
scopes contain the voting permission; an anonymous caller can always
vote. -/
def post_comparison (env : VoteEnv) (request : UserComparisonRequest)
    (st : VoteState) : Except ApiError VoteResponse × VoteState × List Event :=
  match env.user_uuid with
  | some uid =>
    match env.db.users.filter (fun u => u.external_id == uid) with
    | [u] =>
      postAfterAuth env request st (some u) (u.scopes.contains PERM_VOTING_VOTE)
        [Event.dbSelectUsers uid, Event.sessionHeaders]
    | [] => (.error (.python "NoResultFound"), st, [Event.dbSelectUsers uid])
    | _ => (.error (.python "MultipleResultsFound"), st, [Event.dbSelectUsers uid])
  | none =>
    postAfterAuth env request st none true [Event.sessionHeaders]

/-- Sequential execution of a list of vote submissions, threading the
state; used to state the debounce property over a burst of votes. -/
def runVotes : List (VoteEnv × UserComparisonRequest) → VoteState → VoteState
  | [], st => st
  | (e, r) :: rest, st => runVotes rest (post_comparison e r st).2.1

/-- Test set row fixture for the unauthenticated default. -/
def tsU : TestSetRow := ⟨1, "Unauthenticated Test Set"⟩

/-- Test set row fixture for the authenticated default. -/
def tsA : TestSetRow := ⟨2, "Authenticated Test Set"⟩

/-- Metric row fixture. -/
def metric1 : MetricRow := ⟨7, "metric-ext"⟩

/-- Sample row fixture for the first pair member. -/
def sampleA : SampleRow := ⟨101, "aaa", some 1, "ModelA"⟩

/-- Sample row fixture for the second pair member. -/
def sampleB : SampleRow := ⟨102, "bbb", some 1, "ModelB"⟩

/-- User fixture lacking the voting scope. -/
def userNoVote : UserRow := ⟨5, "user-1", ["profile:read"]⟩

/-- User fixture holding the voting scope. -/
def userVote : UserRow := ⟨6, "user-2", [PERM_VOTING_VOTE]⟩

/-- Database fixture with both test sets, both users, one metric and both
samples. -/
def testDb : Db := ⟨[tsU, tsA], [userNoVote, userVote], [metric1], [sampleA, sampleB]⟩

/-- Database fixture with no sample rows at all. -/
def dbNoSamples : Db := ⟨[tsU, tsA], [userNoVote, userVote], [metric1], []⟩

/-- Cache entry fixture binding token tok1 to the metric and the two
sample ids, expiring at instant 1000. -/
def tok1Entry : CacheKey × CacheEntry :=
  (CacheKey.activeComparison "tok1", ⟨mkTokenValue "metric-ext" "aaa" "bbb", 1000⟩)

/-- Vote state fixture: the single issued token, empty ledgers, no jobs. -/
def st0 : VoteState := ⟨[tok1Entry], [], [], [], 1⟩

/-- Anonymous vote environment fixture at instant 10. -/
def envAnon : VoteEnv := ⟨testDb, none, 10, 42, 43⟩

/-- Authenticated vote environment fixture for the user without the voting
scope. -/
def envNoVote : VoteEnv := ⟨testDb, some "user-1", 10, 42, 43⟩

/-- Strict-order vote request fixture on tok1. -/
def reqStrict : UserComparisonRequest := ⟨"tok1", [.single "aaa", .single "bbb"]⟩

/-- Tie-group vote request fixture on tok1. -/
def reqTie : UserComparisonRequest := ⟨"tok1", [.group ["aaa", "bbb"]]⟩

/-- Injective token stream fixture for the batch environment. -/
def tokenStream : Nat → String := fun n => String.mk ('t' :: List.replicate n 'x')

/-- Query oracle fixture returning one standard five-column row. -/
def oneRowResult : String → Except Unit (List Row) :=
  fun n => if n = "comparison_batch_query" then .ok [["aaa", "ka", "bbb", "kb", "build it"]] else .error ()

/-- Anonymous batch environment fixture, standard strategy, empty result. -/
def batchEnvAnon : BatchEnv := ⟨⟨false, "bucket"⟩, testDb, none, 10, tokenStream, fun _ => .ok []⟩

/-- Anonymous batch environment fixture, standard strategy, one-row result. -/
def batchEnvOneRow : BatchEnv := ⟨⟨false, "bucket"⟩, testDb, none, 10, tokenStream, oneRowResult⟩

/-- Whether the user resolution step of post_comparison succeeds: an
anonymous caller, or an authenticated id matching exactly one user row
(one() raises otherwise). -/
def validCaller (env : VoteEnv) : Bool :=
  match env.user_uuid with
  | none => true
  | some uid => (env.db.users.filter (fun x => x.external_id == uid)).length == 1

/-- Appending preserves the character list of a string. -/
theorem string_data_append (s t : String) : (s ++ t).data = s.data ++ t.data := by
  cases s
  cases t
  rfl

/-- Rebuilding a string from its character list is the identity. -/
theorem string_mk_data (s : String) : String.mk s.data = s := by
  cases s
  rfl

/-- The first-colon split recovers the two halves when the left half is
colon free. -/
theorem split1_append (a b : List Char) (h : ':' ∉ a) :
    split1 (a ++ ':' :: b) = some (a, b) := by
  induction a with
  | nil => simp [split1]
  | cons c cs ih =>
    have hc : ¬(c = ':') := fun hh => h (by simp [hh])
    have hcs : ':' ∉ cs := fun hm => h (List.mem_cons_of_mem _ hm)
    simp [split1, hc, ih hcs]

/-- Roundtrip of the token value serialization: parsing recovers exactly
the metric id and the two sample ids when the metric id and the first
sample id are colon free (uuid strings contain no colon). -/
theorem parseTokenValue_mkTokenValue (m a b : String)
    (hm : ':' ∉ m.data) (ha : ':' ∉ a.data) :
    parseTokenValue (mkTokenValue m a b) = some (m, a, b) := by
  have hcolon : (":" : String).data = [':'] := rfl
  have hdata : (mkTokenValue m a b).data = m.data ++ ':' :: (a.data ++ ':' :: b.data) := by
    simp [mkTokenValue, string_data_append, hcolon]
  unfold parseTokenValue
  simp [hdata, split1_append _ _ hm, split1_append _ _ ha, string_mk_data]

/-- A key with no entry at all in the cache association list. -/
def keyAbsent (c : Cache) (k : CacheKey) : Prop := ∀ e ∈ c, e.1 ≠ k

/-- Filtering a key out of the cache makes it absent. -/
theorem keyAbsent_filter (c : Cache) (k : CacheKey) :
    keyAbsent (c.filter (fun e => !(e.1 == k))) k := by
  intro e he
  have h2 := (List.mem_filter.mp he).2
  simpa using h2

/-- An absent key reads as none at every instant. -/
theorem cacheGet_eq_none_of_keyAbsent {c : Cache} {k : CacheKey}
    (h : keyAbsent c k) (now : Nat) : cacheGet c now k = none := by
  unfold cacheGet
  have hf : c.find? (fun e => e.1 == k) = none := by
    apply List.find?_eq_none.mpr
    intro e he
    simpa using h e he
  rw [hf]

/-- Storing under a different key preserves absence. -/
theorem keyAbsent_setEx {c : Cache} {k k2 : CacheKey} (h : keyAbsent c k)
    (hne : k2 ≠ k) (now ttl : Nat) (v : String) :
    keyAbsent (cacheSetEx c now ttl k2 v) k := by
  intro e he
  unfold cacheSetEx at he
  rcases List.mem_cons.mp he with h1 | h2
  · rw [h1]
    exact hne
  · exact h e (List.mem_filter.mp h2).1

/-- Conditional store under a different key preserves absence. -/
theorem keyAbsent_setNx {c : Cache} {k k2 : CacheKey} (h : keyAbsent c k)
    (hne : k2 ≠ k) (now ttl : Nat) (v : String) :
    keyAbsent (cacheSetNx c now ttl k2 v).2 k := by
  unfold cacheSetNx
  cases hg : cacheGet c now k2 with
  | none => exact keyAbsent_setEx h hne now ttl v
  | some w => exact h

/-- Filtering on a predicate implied by the search predicate does not
change the first match. -/
theorem find?_filter_keep {α : Type} (p q : α → Bool) (l : List α)
    (h : ∀ x, p x = true → q x = true) :
    (l.filter q).find? p = l.find? p := by
  induction l with
  | nil => rfl
  | cons a l ih =>
    cases hq : q a with
    | true =>
      rw [List.filter_cons_of_pos hq]
      cases hp : p a with
      | true => rw [List.find?_cons_of_pos _ hp, List.find?_cons_of_pos _ hp]
      | false =>
        rw [List.find?_cons_of_neg _ (by simp [hp]), List.find?_cons_of_neg _ (by simp [hp]), ih]
    | false =>
      have hp : p a = false := by
        cases hpa : p a
        · rfl
        · rw [h a hpa] at hq
          exact absurd hq (by simp)
      rw [List.filter_cons_of_neg (by simp [hq]), List.find?_cons_of_neg _ (by simp [hp]), ih]

/-- Removing the entries of one key leaves the lookup of any other key
unchanged. -/
theorem find?_key_filter_other (c : Cache) (k k2 : CacheKey) (hne : k ≠ k2) :
    (c.filter (fun e => !(e.1 == k2))).find? (fun e => e.1 == k)
      = c.find? (fun e => e.1 == k) := by
  apply find?_filter_keep
  intro x hx
  have hx1 : x.1 = k := by simpa using hx
  simp [hx1, hne]

/-- Storing under one key leaves the lookup of any other key unchanged. -/
theorem find?_key_setEx_other (c : Cache) (now ttl : Nat) (k k2 : CacheKey)
    (v : String) (hne : k ≠ k2) :
    (cacheSetEx c now ttl k2 v).find? (fun e => e.1 == k)
      = c.find? (fun e => e.1 == k) := by
  unfold cacheSetEx
  rw [List.find?_cons_of_neg _ (by simp [Ne.symm hne]), find?_key_filter_other c k k2 hne]

/-- Conditionally storing under one key leaves the lookup of any other key
unchanged. -/
theorem find?_key_setNx_other (c : Cache) (now ttl : Nat) (k k2 : CacheKey)
    (v : String) (hne : k ≠ k2) :
    ((cacheSetNx c now ttl k2 v).2).find? (fun e => e.1 == k)
      = c.find? (fun e => e.1 == k) := by
  unfold cacheSetNx
  cases hg : cacheGet c now k2 with
  | none => exact find?_key_setEx_other c now ttl k k2 v hne
  | some w => rfl

/-- Reading a freshly stored key yields the value until the expiry
instant and nothing afterwards. -/
theorem cacheGet_setEx_self (c : Cache) (now ttl : Nat) (k : CacheKey)
    (v : String) (t : Nat) :
    cacheGet (cacheSetEx c now ttl k v) t k
      = if t < now + ttl then some v else none := by
  unfold cacheGet cacheSetEx
  rw [List.find?_cons_of_pos _ (by simp)]

/-- Two caches agreeing on the lookup of a key agree on its reads. -/
theorem cacheGet_congr_find? {c d : Cache} (k : CacheKey)
    (h : c.find? (fun e => e.1 == k) = d.find? (fun e => e.1 == k)) (now : Nat) :
    cacheGet c now k = cacheGet d now k := by
  unfold cacheGet
  rw [h]

/-- After any run of the vote handler body, the redeemed token key is
absent from the cache at every instant: the get-and-delete removes it and
no later step of the handler writes a token key. -/
theorem postAfterAuth_token_absent (env : VoteEnv) (req : UserComparisonRequest)
    (st : VoteState) (u : Option UserRow) (cv : Bool) (ev : List Event) (t : Nat) :
    cacheGet (postAfterAuth env req st u cv ev).2.1.cache t
      (CacheKey.activeComparison req.token) = none := by
  have habs : keyAbsent
      (st.cache.filter (fun e => !(e.1 == CacheKey.activeComparison req.token)))
      (CacheKey.activeComparison req.token) := keyAbsent_filter _ _
  have hne : CacheKey.eloLock ≠ CacheKey.activeComparison req.token := by simp
  simp only [postAfterAuth, cacheGetDel]
  repeat' split
  all_goals
    first
      | exact cacheGet_eq_none_of_keyAbsent habs t
      | exact cacheGet_eq_none_of_keyAbsent (keyAbsent_setNx habs hne _ _ _) t

/-- A value that parses into a triple is not the empty string. -/
theorem parse_ne_empty {v m a b : String}
    (h : parseTokenValue v = some (m, a, b)) : ¬(v = "") := by
  intro hv
  rw [hv] at h
  simp [parseTokenValue, split1] at h

/-- Redeeming an absent (never issued, already redeemed or expired) token
fails with the generic 404 response and leaves the ledgers and jobs
unchanged. -/
theorem postAfterAuth_404 (env : VoteEnv) (req : UserComparisonRequest)
    (st : VoteState) (u : Option UserRow) (cv : Bool) (ev : List Event)
    (h : cacheGet st.cache env.now (CacheKey.activeComparison req.token) = none) :
    (postAfterAuth env req st u cv ev).1
        = .error (.http 404 "No active comparisons found") ∧
    (postAfterAuth env req st u cv ev).2.1.comparisons = st.comparisons ∧
    (postAfterAuth env req st u cv ev).2.1.comparison_ranks = st.comparison_ranks ∧
    (postAfterAuth env req st u cv ev).2.1.jobs = st.jobs := by
  simp [postAfterAuth, cacheGetDel, h]

/-- The ineligible path of the vote handler: with a live token, resolvable
samples and a well-formed ranking, a caller with can_vote false receives
the normal model-name response while the state changes only by the token
deletion. -/
theorem postAfterAuth_ineligible (env : VoteEnv) (req : UserComparisonRequest)
    (st : VoteState) (u : Option UserRow) (ev : List Event)
    (v m a b : String) (sa sb : SampleRow) (rks : List (Nat × SampleRow))
    (hget : cacheGet st.cache env.now (CacheKey.activeComparison req.token) = some v)
    (hparse : parseTokenValue v = some (m, a, b))
    (hsa : pairLookup env.db a b a = some sa)
    (hsb : pairLookup env.db a b b = some sb)
    (hexp : expandRanks (pairLookup env.db a b) req.ordered_sample_ids 0 = Except.ok rks) :
    (postAfterAuth env req st u false ev).1 = .ok ⟨sa.model_name, sb.model_name⟩ ∧
    (postAfterAuth env req st u false ev).2.1 =
      { st with cache := (st.cache.filter (fun e => !(e.1 == CacheKey.activeComparison req.token))) } := by
  have hvne : ¬(v = "") := parse_ne_empty hparse
  simp [postAfterAuth, cacheGetDel, hget, hvne, hparse, hsa, hsb, hexp]

/-- The eligible write path of the vote handler with the recompute lock
free: one Comparison row and one ComparisonRank row per expanded
(rank, sample) pair are appended, the lock key is stored with ttl 300 and
the elo_calculation job is enqueued, and the response carries both model
names. -/
theorem postAfterAuth_vote (env : VoteEnv) (req : UserComparisonRequest)
    (st : VoteState) (u : Option UserRow) (ev : List Event)
    (v m a b : String) (sa sb : SampleRow) (rks : List (Nat × SampleRow))
    (mrow : MetricRow)
    (hget : cacheGet st.cache env.now (CacheKey.activeComparison req.token) = some v)
    (hparse : parseTokenValue v = some (m, a, b))
    (hsa : pairLookup env.db a b a = some sa)
    (hsb : pairLookup env.db a b b = some sb)
    (hexp : expandRanks (pairLookup env.db a b) req.ordered_sample_ids 0 = Except.ok rks)
    (hmet : findMetric env.db m = some mrow)
    (hlock : cacheGet st.cache env.now CacheKey.eloLock = none) :
    (postAfterAuth env req st u true ev).1 = .ok ⟨sa.model_name, sb.model_name⟩ ∧
    (postAfterAuth env req st u true ev).2.1 =
      { cache := cacheSetEx
          (st.cache.filter (fun e => !(e.1 == CacheKey.activeComparison req.token)))
          env.now 300 CacheKey.eloLock "1",
        comparisons := st.comparisons ++
          [⟨st.next_comparison_id, u.map (fun x => x.id), mrow.id, deriveTestSet sa sb,
            env.session_id, env.identification_token_id⟩],
        comparison_ranks := st.comparison_ranks ++
          rks.map (fun p => ComparisonRankRow.mk st.next_comparison_id p.2.id p.1),
        jobs := st.jobs ++ ["elo_calculation"],
        next_comparison_id := st.next_comparison_id + 1 } := by
  have hvne : ¬(v = "") := parse_ne_empty hparse
  have hfl : (st.cache.filter (fun e => !(e.1 == CacheKey.activeComparison req.token))).find?
      (fun e => e.1 == CacheKey.eloLock) = st.cache.find? (fun e => e.1 == CacheKey.eloLock) :=
    find?_key_filter_other _ _ _ (by simp)
  have hgl : cacheGet (st.cache.filter (fun e => !(e.1 == CacheKey.activeComparison req.token)))
      env.now CacheKey.eloLock = none := by
    rw [cacheGet_congr_find? _ hfl]
    exact hlock
  have hnx : cacheSetNx
      (st.cache.filter (fun e => !(e.1 == CacheKey.activeComparison req.token)))
      env.now 300 CacheKey.eloLock "1"
      = (true, cacheSetEx
          (st.cache.filter (fun e => !(e.1 == CacheKey.activeComparison req.token)))
          env.now 300 CacheKey.eloLock "1") := by
    unfold cacheSetNx
    rw [hgl]
  simp [postAfterAuth, cacheGetDel, hget, hvne, hparse, hsa, hsb, hexp, hmet, hnx]

/-- The eligible write path of the vote handler with the recompute lock
already held: ledger rows are appended as usual, nothing is enqueued and
the response is still the normal model-name response, never an error. -/
theorem postAfterAuth_vote_lockheld (env : VoteEnv) (req : UserComparisonRequest)
    (st : VoteState) (u : Option UserRow) (ev : List Event)
    (v m a b w : String) (sa sb : SampleRow) (rks : List (Nat × SampleRow))
    (mrow : MetricRow)
    (hget : cacheGet st.cache env.now (CacheKey.activeComparison req.token) = some v)
    (hparse : parseTokenValue v = some (m, a, b))
    (hsa : pairLookup env.db a b a = some sa)
    (hsb : pairLookup env.db a b b = some sb)
    (hexp : expandRanks (pairLookup env.db a b) req.ordered_sample_ids 0 = Except.ok rks)
    (hmet : findMetric env.db m = some mrow)
    (hlock : cacheGet st.cache env.now CacheKey.eloLock = some w) :
    (postAfterAuth env req st u true ev).1 = .ok ⟨sa.model_name, sb.model_name⟩ ∧
    (postAfterAuth env req st u true ev).2.1.jobs = st.jobs := by
  have hvne : ¬(v = "") := parse_ne_empty hparse
  have hfl : (st.cache.filter (fun e => !(e.1 == CacheKey.activeComparison req.token))).find?
      (fun e => e.1 == CacheKey.eloLock) = st.cache.find? (fun e => e.1 == CacheKey.eloLock) :=
    find?_key_filter_other _ _ _ (by simp)
  have hgl : cacheGet (st.cache.filter (fun e => !(e.1 == CacheKey.activeComparison req.token)))
      env.now CacheKey.eloLock = some w := by
    rw [cacheGet_congr_find? _ hfl]
    exact hlock
  have hnx : cacheSetNx
      (st.cache.filter (fun e => !(e.1 == CacheKey.activeComparison req.token)))
      env.now 300 CacheKey.eloLock "1"
      = (false, st.cache.filter (fun e => !(e.1 == CacheKey.activeComparison req.token))) := by
    unfold cacheSetNx
    rw [hgl]
  simp [postAfterAuth, cacheGetDel, hget, hvne, hparse, hsa, hsb, hexp, hmet, hnx]

/-- Whatever the vote request does, a held recompute lock means no job is
enqueued and the lock entry is untouched. -/
theorem postAfterAuth_lock_held (env : VoteEnv) (req : UserComparisonRequest)
    (st : VoteState) (u : Option UserRow) (cv : Bool) (ev : List Event) (w : String)
    (h : cacheGet st.cache env.now CacheKey.eloLock = some w) :
    (postAfterAuth env req st u cv ev).2.1.jobs = st.jobs ∧
    (postAfterAuth env req st u cv ev).2.1.cache.find? (fun e => e.1 == CacheKey.eloLock)
      = st.cache.find? (fun e => e.1 == CacheKey.eloLock) := by
  have hfl : (st.cache.filter (fun e => !(e.1 == CacheKey.activeComparison req.token))).find?
      (fun e => e.1 == CacheKey.eloLock) = st.cache.find? (fun e => e.1 == CacheKey.eloLock) :=
    find?_key_filter_other _ _ _ (by simp)
  have hgl : cacheGet (st.cache.filter (fun e => !(e.1 == CacheKey.activeComparison req.token)))
      env.now CacheKey.eloLock = some w := by
    rw [cacheGet_congr_find? _ hfl]
    exact h
  have hnx : cacheSetNx
      (st.cache.filter (fun e => !(e.1 == CacheKey.activeComparison req.token)))
      env.now 300 CacheKey.eloLock "1"
      = (false, st.cache.filter (fun e => !(e.1 == CacheKey.activeComparison req.token))) := by
    unfold cacheSetNx
    rw [hgl]
  simp only [postAfterAuth, cacheGetDel, hnx]
  repeat' split
  all_goals simp_all [hfl]

/-- Reduction of the full handler for an anonymous caller. -/
theorem post_comparison_anon (env : VoteEnv) (req : UserComparisonRequest)
    (st : VoteState) (h : env.user_uuid = none) :
    post_comparison env req st
      = postAfterAuth env req st none true [Event.sessionHeaders] := by
  simp [post_comparison, h]

/-- Reduction of the full handler for an authenticated caller resolving
to exactly one user row. -/
theorem post_comparison_auth (env : VoteEnv) (req : UserComparisonRequest)
    (st : VoteState) (uid : String) (u : UserRow) (h : env.user_uuid = some uid)
    (hu : env.db.users.filter (fun x => x.external_id == uid) = [u]) :
    post_comparison env req st
      = postAfterAuth env req st (some u) (u.scopes.contains PERM_VOTING_VOTE)
          [Event.dbSelectUsers uid, Event.sessionHeaders] := by
  simp [post_comparison, h, hu]

/-- A valid caller always reaches the handler body. -/
theorem post_comparison_eq (env : VoteEnv) (req : UserComparisonRequest)
    (st : VoteState) (h : validCaller env = true) :
    ∃ u cv ev0, post_comparison env req st = postAfterAuth env req st u cv ev0 := by
  cases huid : env.user_uuid with
  | none => exact ⟨none, true, _, post_comparison_anon env req st huid⟩
  | some uid =>
    unfold validCaller at h
    rw [huid] at h
    simp only [beq_iff_eq] at h
    rcases hl : env.db.users.filter (fun x => x.external_id == uid) with _ | ⟨u, tl⟩
    · rw [hl] at h
      simp at h
    · cases tl with
      | nil => exact ⟨some u, _, _, post_comparison_auth env req st uid u huid hl⟩
      | cons u2 rest =>
        rw [hl] at h
        simp at h

/-- Reading a key through a lookup that found it at its own key yields the
entry value while it is live. -/
theorem cacheGet_of_find? {c : Cache} {k : CacheKey} {entry : CacheEntry} {now : Nat}
    (h : c.find? (fun e => e.1 == k) = some (k, entry)) (hlt : now < entry.expiresAt) :
    cacheGet c now k = some entry.value := by
  unfold cacheGet
  rw [h]
  simp [hlt]

/-- Whatever a vote request does, a held recompute lock means the full
handler enqueues nothing and leaves the lock entry untouched. -/
theorem post_comparison_lock_held (env : VoteEnv) (req : UserComparisonRequest)
    (st : VoteState) (w : String)
    (h : cacheGet st.cache env.now CacheKey.eloLock = some w) :
    (post_comparison env req st).2.1.jobs = st.jobs ∧
    (post_comparison env req st).2.1.cache.find? (fun e => e.1 == CacheKey.eloLock)
      = st.cache.find? (fun e => e.1 == CacheKey.eloLock) := by
  cases huid : env.user_uuid with
  | none =>
    rw [post_comparison_anon env req st huid]
    exact postAfterAuth_lock_held env req st none true _ w h
  | some uid =>
    rcases hl : env.db.users.filter (fun x => x.external_id == uid) with _ | ⟨u, tl⟩
    · simp [post_comparison, huid, hl]
    · cases tl with
      | nil =>
        rw [post_comparison_auth env req st uid u huid hl]
        exact postAfterAuth_lock_held env req st (some u) _ _ w h
      | cons u2 rest =>
        simp [post_comparison, huid, hl]

/-- Over any burst of vote submissions all issued while the recompute lock
entry is live, no job at all is enqueued. -/
theorem runVotes_lock_held (votes : List (VoteEnv × UserComparisonRequest)) :
    ∀ (st : VoteState) (entry : CacheEntry),
    st.cache.find? (fun e => e.1 == CacheKey.eloLock) = some (CacheKey.eloLock, entry) →
    (∀ p ∈ votes, p.1.now < entry.expiresAt) →
    (runVotes votes st).jobs = st.jobs := by
  induction votes with
  | nil =>
    intro st entry _ _
    rfl
  | cons p rest ih =>
    intro st entry hfind htimes
    obtain ⟨e, r⟩ := p
    have hnow : e.now < entry.expiresAt := htimes (e, r) (List.mem_cons_self _ _)
    have hget : cacheGet st.cache e.now CacheKey.eloLock = some entry.value :=
      cacheGet_of_find? hfind hnow
    have hstep := post_comparison_lock_held e r st entry.value hget
    have hrec := ih (post_comparison e r st).2.1 entry
      (by rw [hstep.2]; exact hfind)
      (fun q hq => htimes q (List.mem_cons_of_mem _ hq))
    calc (runVotes ((e, r) :: rest) st).jobs
        = (runVotes rest (post_comparison e r st).2.1).jobs := rfl
      _ = (post_comparison e r st).2.1.jobs := hrec
      _ = st.jobs := hstep.1

/-- C1: for every issued comparison token, redemption is the single atomic
get-and-delete cacheGetDel on the token cache key; after one vote request
has redeemed the live token, the token key is absent from the cache at
every instant, and any subsequent vote request presenting the same token
fails with the generic 404 NotFound response and writes no Comparison and
no ComparisonRank ledger rows. -/
theorem C1_token_single_redemption (env : VoteEnv) (req : UserComparisonRequest)
    (st : VoteState) (v : String)
    (hcaller : validCaller env = true)
    (hlive : cacheGet st.cache env.now (CacheKey.activeComparison req.token) = some v) :
    (∀ t, cacheGet (post_comparison env req st).2.1.cache t
        (CacheKey.activeComparison req.token) = none) ∧
    (∀ (env2 : VoteEnv) (req2 : UserComparisonRequest),
      validCaller env2 = true → req2.token = req.token →
      (post_comparison env2 req2 (post_comparison env req st).2.1).1
          = .error (.http 404 "No active comparisons found") ∧
      (post_comparison env2 req2 (post_comparison env req st).2.1).2.1.comparisons
          = (post_comparison env req st).2.1.comparisons ∧
      (post_comparison env2 req2 (post_comparison env req st).2.1).2.1.comparison_ranks
          = (post_comparison env req st).2.1.comparison_ranks) := by
  obtain ⟨u, cv, ev0, heq⟩ := post_comparison_eq env req st hcaller
  have habs : ∀ t, cacheGet (post_comparison env req st).2.1.cache t
      (CacheKey.activeComparison req.token) = none := by
    intro t
    rw [heq]
    exact postAfterAuth_token_absent env req st u cv ev0 t
  refine ⟨habs, ?_⟩
  intro env2 req2 hc2 htok
  obtain ⟨u2, cv2, ev2, heq2⟩ := post_comparison_eq env2 req2 (post_comparison env req st).2.1 hc2
  have habs2 : cacheGet (post_comparison env req st).2.1.cache env2.now
      (CacheKey.activeComparison req2.token) = none := by
    rw [htok]
    exact habs env2.now
  rw [heq2]
  have h404 := postAfterAuth_404 env2 req2 (post_comparison env req st).2.1 u2 cv2 ev2 habs2
  exact ⟨h404.1, h404.2.1, h404.2.2.1⟩

/-- C1 witness at the fixture: the redeemed token is gone and the second
redemption fails 404. -/
theorem C1_witness :
    cacheGet (post_comparison envAnon reqStrict st0).2.1.cache 2000
      (CacheKey.activeComparison "tok1") = none ∧
    (post_comparison envAnon reqStrict (post_comparison envAnon reqStrict st0).2.1).1
      = .error (.http 404 "No active comparisons found") := by
  have h := C1_token_single_redemption envAnon reqStrict st0
      (mkTokenValue "metric-ext" "aaa" "bbb") (by decide) (by decide)
  exact ⟨h.1 2000, (h.2 envAnon reqStrict (by decide) rfl).1⟩

/-- C3: the caller ranking is expanded with the 1-based position index as
rank and every member of a tie-group sharing the position rank: the
strict order [sampleA, sampleB] persists sampleA with rank 1 and sampleB
with rank 2, and the tie [[sampleA, sampleB]] persists both ComparisonRank
rows with rank 1, one row per (rank, sample) pair, all attached to the one
new Comparison row. -/
theorem C3_ranking_expansion (env : VoteEnv) (st : VoteState)
    (tok v m a b : String) (sa sb : SampleRow) (mrow : MetricRow)
    (hanon : env.user_uuid = none)
    (hget : cacheGet st.cache env.now (CacheKey.activeComparison tok) = some v)
    (hparse : parseTokenValue v = some (m, a, b))
    (hsa : pairLookup env.db a b a = some sa)
    (hsb : pairLookup env.db a b b = some sb)
    (hmet : findMetric env.db m = some mrow)
    (hlock : cacheGet st.cache env.now CacheKey.eloLock = none) :
    ((post_comparison env ⟨tok, [.single a, .single b]⟩ st).2.1.comparison_ranks
        = st.comparison_ranks ++
          [⟨st.next_comparison_id, sa.id, 1⟩, ⟨st.next_comparison_id, sb.id, 2⟩] ∧
     (post_comparison env ⟨tok, [.single a, .single b]⟩ st).2.1.comparisons
        = st.comparisons ++
          [⟨st.next_comparison_id, none, mrow.id, deriveTestSet sa sb,
            env.session_id, env.identification_token_id⟩]) ∧
    ((post_comparison env ⟨tok, [.group [a, b]]⟩ st).2.1.comparison_ranks
        = st.comparison_ranks ++
          [⟨st.next_comparison_id, sa.id, 1⟩, ⟨st.next_comparison_id, sb.id, 1⟩] ∧
     (post_comparison env ⟨tok, [.group [a, b]]⟩ st).2.1.comparisons
        = st.comparisons ++
          [⟨st.next_comparison_id, none, mrow.id, deriveTestSet sa sb,
            env.session_id, env.identification_token_id⟩]) := by
  have hexp1 : expandRanks (pairLookup env.db a b) [.single a, .single b] 0
      = Except.ok [(1, sa), (2, sb)] := by
    simp [expandRanks, hsa, hsb]
  have hexp2 : expandRanks (pairLookup env.db a b) [.group [a, b]] 0
      = Except.ok [(1, sa), (1, sb)] := by
    simp [expandRanks, expandGroup, hsa, hsb]
  constructor
  · rw [post_comparison_anon env ⟨tok, [.single a, .single b]⟩ st hanon]
    have h := postAfterAuth_vote env ⟨tok, [.single a, .single b]⟩ st none
      [Event.sessionHeaders] v m a b sa sb [(1, sa), (2, sb)] mrow
      hget hparse hsa hsb hexp1 hmet hlock
    rw [h.2]
    exact ⟨rfl, rfl⟩
  · rw [post_comparison_anon env ⟨tok, [.group [a, b]]⟩ st hanon]
    have h := postAfterAuth_vote env ⟨tok, [.group [a, b]]⟩ st none
      [Event.sessionHeaders] v m a b sa sb [(1, sa), (1, sb)] mrow
      hget hparse hsa hsb hexp2 hmet hlock
    rw [h.2]
    exact ⟨rfl, rfl⟩

/-- C3 witness at the fixture: strict order gives ranks 1 and 2, the tie
group gives rank 1 twice. -/
theorem C3_witness :
    ((post_comparison envAnon ⟨"tok1", [.single "aaa", .single "bbb"]⟩ st0).2.1.comparison_ranks
        = [⟨1, 101, 1⟩, ⟨1, 102, 2⟩] ∧
     (post_comparison envAnon ⟨"tok1", [.single "aaa", .single "bbb"]⟩ st0).2.1.comparisons
        = [⟨1, none, 7, deriveTestSet sampleA sampleB, 42, 43⟩]) ∧
    ((post_comparison envAnon ⟨"tok1", [.group ["aaa", "bbb"]]⟩ st0).2.1.comparison_ranks
        = [⟨1, 101, 1⟩, ⟨1, 102, 1⟩] ∧
     (post_comparison envAnon ⟨"tok1", [.group ["aaa", "bbb"]]⟩ st0).2.1.comparisons
        = [⟨1, none, 7, deriveTestSet sampleA sampleB, 42, 43⟩]) :=
  C3_ranking_expansion envAnon st0 "tok1" (mkTokenValue "metric-ext" "aaa" "bbb")
    "metric-ext" "aaa" "bbb" sampleA sampleB metric1
    (by decide) (by decide) (by decide) (by decide) (by decide) (by decide) (by decide)

/-- C4: with a valid token and resolvable samples, an anonymous caller
always appends one Comparison row plus its ComparisonRank rows, an
authenticated caller lacking the voting scope appends no ledger row and no
job, and both receive the identical 200 response carrying both samples
owning model names, so the response does not depend on eligibility. -/
theorem C4_eligibility_noninterference (db : Db) (now sid itid : Nat)
    (st : VoteState) (uid : String) (u : UserRow)
    (tok v m a b : String) (sa sb : SampleRow) (rks : List (Nat × SampleRow))
    (mrow : MetricRow) (ordered : List RankEntry)
    (hu : db.users.filter (fun x => x.external_id == uid) = [u])
    (hscope : u.scopes.contains PERM_VOTING_VOTE = false)
    (hget : cacheGet st.cache now (CacheKey.activeComparison tok) = some v)
    (hparse : parseTokenValue v = some (m, a, b))
    (hsa : pairLookup db a b a = some sa)
    (hsb : pairLookup db a b b = some sb)
    (hexp : expandRanks (pairLookup db a b) ordered 0 = Except.ok rks)
    (hmet : findMetric db m = some mrow)
    (hlock : cacheGet st.cache now CacheKey.eloLock = none) :
    (post_comparison ⟨db, none, now, sid, itid⟩ ⟨tok, ordered⟩ st).1
        = .ok ⟨sa.model_name, sb.model_name⟩ ∧
    (post_comparison ⟨db, some uid, now, sid, itid⟩ ⟨tok, ordered⟩ st).1
        = (post_comparison ⟨db, none, now, sid, itid⟩ ⟨tok, ordered⟩ st).1 ∧
    (post_comparison ⟨db, none, now, sid, itid⟩ ⟨tok, ordered⟩ st).2.1.comparisons
        = st.comparisons ++
          [⟨st.next_comparison_id, none, mrow.id, deriveTestSet sa sb, sid, itid⟩] ∧
    (post_comparison ⟨db, none, now, sid, itid⟩ ⟨tok, ordered⟩ st).2.1.comparison_ranks
        = st.comparison_ranks ++
          rks.map (fun p => ComparisonRankRow.mk st.next_comparison_id p.2.id p.1) ∧
    (post_comparison ⟨db, some uid, now, sid, itid⟩ ⟨tok, ordered⟩ st).2.1.comparisons
        = st.comparisons ∧
    (post_comparison ⟨db, some uid, now, sid, itid⟩ ⟨tok, ordered⟩ st).2.1.comparison_ranks
        = st.comparison_ranks ∧
    (post_comparison ⟨db, some uid, now, sid, itid⟩ ⟨tok, ordered⟩ st).2.1.jobs
        = st.jobs := by
  have hanonEq := post_comparison_anon ⟨db, none, now, sid, itid⟩ ⟨tok, ordered⟩ st rfl
  have hvote := postAfterAuth_vote ⟨db, none, now, sid, itid⟩ ⟨tok, ordered⟩ st none
    [Event.sessionHeaders] v m a b sa sb rks mrow hget hparse hsa hsb hexp hmet hlock
  have hauthEq := post_comparison_auth ⟨db, some uid, now, sid, itid⟩ ⟨tok, ordered⟩ st uid u rfl hu
  rw [hscope] at hauthEq
  have hinel := postAfterAuth_ineligible ⟨db, some uid, now, sid, itid⟩ ⟨tok, ordered⟩ st
    (some u) [Event.dbSelectUsers uid, Event.sessionHeaders] v m a b sa sb rks
    hget hparse hsa hsb hexp
  refine ⟨?_, ?_, ?_, ?_, ?_, ?_, ?_⟩
  · rw [hanonEq, hvote.1]
  · rw [hanonEq, hauthEq, hvote.1, hinel.1]
  · rw [hanonEq, hvote.2]
    simp
  · rw [hanonEq, hvote.2]
  · rw [hauthEq, hinel.2]
  · rw [hauthEq, hinel.2]
  · rw [hauthEq, hinel.2]

/-- C4 witness at the fixture: anonymous and scope-lacking authenticated
callers get the same 200 response, only the anonymous run writes. -/
theorem C4_witness :
    (post_comparison ⟨testDb, none, 10, 42, 43⟩ reqStrict st0).1
        = .ok ⟨"ModelA", "ModelB"⟩ ∧
    (post_comparison ⟨testDb, some "user-1", 10, 42, 43⟩ reqStrict st0).1
        = (post_comparison ⟨testDb, none, 10, 42, 43⟩ reqStrict st0).1 ∧
    (post_comparison ⟨testDb, some "user-1", 10, 42, 43⟩ reqStrict st0).2.1.comparisons = [] ∧
    (post_comparison ⟨testDb, none, 10, 42, 43⟩ reqStrict st0).2.1.comparisons
        = [⟨1, none, 7, deriveTestSet sampleA sampleB, 42, 43⟩] := by
  have h := C4_eligibility_noninterference testDb 10 42 43 st0 "user-1" userNoVote
    "tok1" (mkTokenValue "metric-ext" "aaa" "bbb") "metric-ext" "aaa" "bbb"
    sampleA sampleB [(1, sampleA), (2, sampleB)] metric1 [.single "aaa", .single "bbb"]
    (by decide) (by decide) (by decide) (by decide) (by decide) (by decide)
    (by decide) (by decide) (by decide)
  exact ⟨h.1, h.2.1, h.2.2.2.2.1, h.2.2.1⟩

/-- C9: an authenticated caller without the voting scope still consumes
the token through the unconditional get-and-delete that precedes the
eligibility branch: the request succeeds with the normal response, the
Comparison and ComparisonRank ledgers, the jobs and the recompute lock
entry stay unchanged, the token key is absent at every later instant, and
any later redemption of that token by any caller fails 404, so the vote
opportunity is permanently spent. -/
theorem C9_ineligible_caller_spends_token (env : VoteEnv) (req : UserComparisonRequest)
    (st : VoteState) (uid : String) (u : UserRow)
    (v m a b : String) (sa sb : SampleRow) (rks : List (Nat × SampleRow))
    (huid : env.user_uuid = some uid)
    (hu : env.db.users.filter (fun x => x.external_id == uid) = [u])
    (hscope : u.scopes.contains PERM_VOTING_VOTE = false)
    (hget : cacheGet st.cache env.now (CacheKey.activeComparison req.token) = some v)
    (hparse : parseTokenValue v = some (m, a, b))
    (hsa : pairLookup env.db a b a = some sa)
    (hsb : pairLookup env.db a b b = some sb)
    (hexp : expandRanks (pairLookup env.db a b) req.ordered_sample_ids 0 = Except.ok rks) :
    (post_comparison env req st).1 = .ok ⟨sa.model_name, sb.model_name⟩ ∧
    (post_comparison env req st).2.1.comparisons = st.comparisons ∧
    (post_comparison env req st).2.1.comparison_ranks = st.comparison_ranks ∧
    (post_comparison env req st).2.1.jobs = st.jobs ∧
    (post_comparison env req st).2.1.cache.find? (fun e => e.1 == CacheKey.eloLock)
        = st.cache.find? (fun e => e.1 == CacheKey.eloLock) ∧
    (∀ t, cacheGet (post_comparison env req st).2.1.cache t
        (CacheKey.activeComparison req.token) = none) ∧
    (∀ (env2 : VoteEnv) (req2 : UserComparisonRequest),
      validCaller env2 = true → req2.token = req.token →
      (post_comparison env2 req2 (post_comparison env req st).2.1).1
          = .error (.http 404 "No active comparisons found")) := by
  have hauthEq := post_comparison_auth env req st uid u huid hu
  rw [hscope] at hauthEq
  have hinel := postAfterAuth_ineligible env req st (some u)
    [Event.dbSelectUsers uid, Event.sessionHeaders] v m a b sa sb rks
    hget hparse hsa hsb hexp
  have habs : ∀ t, cacheGet (post_comparison env req st).2.1.cache t
      (CacheKey.activeComparison req.token) = none := by
    intro t
    rw [hauthEq]
    exact postAfterAuth_token_absent env req st (some u) false _ t
  refine ⟨?_, ?_, ?_, ?_, ?_, habs, ?_⟩
  · rw [hauthEq, hinel.1]
  · rw [hauthEq, hinel.2]
  · rw [hauthEq, hinel.2]
  · rw [hauthEq, hinel.2]
  · rw [hauthEq, hinel.2]
    exact find?_key_filter_other _ _ _ (by simp)
  · intro env2 req2 hc2 htok
    obtain ⟨u2, cv2, ev2, heq2⟩ := post_comparison_eq env2 req2 (post_comparison env req st).2.1 hc2
    have habs2 : cacheGet (post_comparison env req st).2.1.cache env2.now
        (CacheKey.activeComparison req2.token) = none := by
      rw [htok]
      exact habs env2.now
    rw [heq2]
    exact (postAfterAuth_404 env2 req2 (post_comparison env req st).2.1 u2 cv2 ev2 habs2).1

/-- C9 witness at the fixture: the no-scope caller gets the normal
response, writes nothing, and the retry by an anonymous caller fails. -/
theorem C9_witness :
    (post_comparison envNoVote reqStrict st0).1 = .ok ⟨"ModelA", "ModelB"⟩ ∧
    (post_comparison envNoVote reqStrict st0).2.1.comparisons = [] ∧
    (post_comparison envNoVote reqStrict st0).2.1.jobs = [] ∧
    cacheGet (post_comparison envNoVote reqStrict st0).2.1.cache 11
        (CacheKey.activeComparison "tok1") = none ∧
    (post_comparison envAnon reqStrict (post_comparison envNoVote reqStrict st0).2.1).1
        = .error (.http 404 "No active comparisons found") := by
  have h := C9_ineligible_caller_spends_token envNoVote reqStrict st0 "user-1" userNoVote
    (mkTokenValue "metric-ext" "aaa" "bbb") "metric-ext" "aaa" "bbb"
    sampleA sampleB [(1, sampleA), (2, sampleB)]
    (by decide) (by decide) (by decide) (by decide) (by decide) (by decide) (by decide) (by decide)
  exact ⟨h.1, h.2.1, h.2.2.2.1, h.2.2.2.2.2.1 11, h.2.2.2.2.2.2 envAnon reqStrict (by decide) rfl⟩

/-- Vote state fixture whose cache also holds the recompute lock, live
until instant 500. -/
def stLock : VoteState := ⟨[tok1Entry, (CacheKey.eloLock, ⟨"1", 500⟩)], [], [], [], 1⟩

/-- C5: after a successful vote write the recompute trigger does one
conditional set on the fixed lock key with ttl 300; when the lock is free
exactly one elo_calculation job is enqueued and the lock entry expires 300
seconds after now; any request finding the lock held enqueues nothing and
leaves the lock entry untouched, and a held lock is never surfaced as an
error (the successful write still returns the normal response); hence a
burst of votes all issued while the lock entry is live enqueues no further
job. -/
theorem C5_recompute_debounce :
    (∀ (env : VoteEnv) (st : VoteState) (tok v m a b : String)
       (sa sb : SampleRow) (rks : List (Nat × SampleRow)) (mrow : MetricRow)
       (ordered : List RankEntry),
      env.user_uuid = none →
      cacheGet st.cache env.now (CacheKey.activeComparison tok) = some v →
      parseTokenValue v = some (m, a, b) →
      pairLookup env.db a b a = some sa →
      pairLookup env.db a b b = some sb →
      expandRanks (pairLookup env.db a b) ordered 0 = Except.ok rks →
      findMetric env.db m = some mrow →
      cacheGet st.cache env.now CacheKey.eloLock = none →
      (post_comparison env ⟨tok, ordered⟩ st).2.1.jobs = st.jobs ++ ["elo_calculation"] ∧
      (post_comparison env ⟨tok, ordered⟩ st).2.1.cache.find?
          (fun e => e.1 == CacheKey.eloLock)
        = some (CacheKey.eloLock, ⟨"1", env.now + 300⟩) ∧
      (post_comparison env ⟨tok, ordered⟩ st).1 = .ok ⟨sa.model_name, sb.model_name⟩) ∧
    (∀ (env : VoteEnv) (req : UserComparisonRequest) (st : VoteState) (w : String),
      cacheGet st.cache env.now CacheKey.eloLock = some w →
      (post_comparison env req st).2.1.jobs = st.jobs ∧
      (post_comparison env req st).2.1.cache.find? (fun e => e.1 == CacheKey.eloLock)
        = st.cache.find? (fun e => e.1 == CacheKey.eloLock)) ∧
    (∀ (votes : List (VoteEnv × UserComparisonRequest)) (st : VoteState) (entry : CacheEntry),
      st.cache.find? (fun e => e.1 == CacheKey.eloLock) = some (CacheKey.eloLock, entry) →
      (∀ p ∈ votes, p.1.now < entry.expiresAt) →
      (runVotes votes st).jobs = st.jobs) ∧
    (∀ (env : VoteEnv) (st : VoteState) (tok v m a b w : String)
       (sa sb : SampleRow) (rks : List (Nat × SampleRow)) (mrow : MetricRow)
       (ordered : List RankEntry),
      env.user_uuid = none →
      cacheGet st.cache env.now (CacheKey.activeComparison tok) = some v →
      parseTokenValue v = some (m, a, b) →
      pairLookup env.db a b a = some sa →
      pairLookup env.db a b b = some sb →
      expandRanks (pairLookup env.db a b) ordered 0 = Except.ok rks →
      findMetric env.db m = some mrow →
      cacheGet st.cache env.now CacheKey.eloLock = some w →
      (post_comparison env ⟨tok, ordered⟩ st).1 = .ok ⟨sa.model_name, sb.model_name⟩ ∧
      (post_comparison env ⟨tok, ordered⟩ st).2.1.jobs = st.jobs) := by
  refine ⟨?_, ?_, ?_, ?_⟩
  · intro env st tok v m a b sa sb rks mrow ordered hanon hget hparse hsa hsb hexp hmet hlock
    rw [post_comparison_anon env ⟨tok, ordered⟩ st hanon]
    have h := postAfterAuth_vote env ⟨tok, ordered⟩ st none [Event.sessionHeaders]
      v m a b sa sb rks mrow hget hparse hsa hsb hexp hmet hlock
    rw [h.2]
    refine ⟨rfl, ?_, h.1⟩
    exact List.find?_cons_of_pos _ (by simp)
  · intro env req st w h
    exact post_comparison_lock_held env req st w h
  · intro votes st entry hfind htimes
    exact runVotes_lock_held votes st entry hfind htimes
  · intro env st tok v m a b w sa sb rks mrow ordered hanon hget hparse hsa hsb hexp hmet hlock
    rw [post_comparison_anon env ⟨tok, ordered⟩ st hanon]
    exact postAfterAuth_vote_lockheld env ⟨tok, ordered⟩ st none [Event.sessionHeaders]
      v m a b w sa sb rks mrow hget hparse hsa hsb hexp hmet hlock

/-- C5 witness at the fixtures: a lock-free vote enqueues exactly one job
and stores the lock until instant 310; with the lock held the same vote
enqueues nothing and still succeeds; a one-vote burst under a live lock
enqueues nothing. -/
theorem C5_witness :
    ((post_comparison envAnon reqStrict st0).2.1.jobs = ["elo_calculation"] ∧
     (post_comparison envAnon reqStrict st0).2.1.cache.find?
        (fun e => e.1 == CacheKey.eloLock) = some (CacheKey.eloLock, ⟨"1", 310⟩)) ∧
    ((post_comparison envAnon reqStrict stLock).2.1.jobs = [] ∧
     (post_comparison envAnon reqStrict stLock).2.1.cache.find?
        (fun e => e.1 == CacheKey.eloLock) = some (CacheKey.eloLock, ⟨"1", 500⟩)) ∧
    (runVotes [(envAnon, reqStrict)] stLock).jobs = [] ∧
    (post_comparison envAnon reqStrict stLock).1 = .ok ⟨"ModelA", "ModelB"⟩ := by
  have h := C5_recompute_debounce
  have h1 := h.1 envAnon st0 "tok1" (mkTokenValue "metric-ext" "aaa" "bbb")
    "metric-ext" "aaa" "bbb" sampleA sampleB [(1, sampleA), (2, sampleB)] metric1
    [.single "aaa", .single "bbb"]
    (by decide) (by decide) (by decide) (by decide) (by decide) (by decide) (by decide) (by decide)
  have h2 := h.2.1 envAnon reqStrict stLock "1" (by decide)
  have h3 := h.2.2.1 [(envAnon, reqStrict)] stLock ⟨"1", 500⟩ (by decide) (by decide)
  have h4 := h.2.2.2 envAnon stLock "tok1" (mkTokenValue "metric-ext" "aaa" "bbb")
    "metric-ext" "aaa" "bbb" "1" sampleA sampleB [(1, sampleA), (2, sampleB)] metric1
    [.single "aaa", .single "bbb"]
    (by decide) (by decide) (by decide) (by decide) (by decide) (by decide) (by decide) (by decide)
  refine ⟨⟨h1.1, h1.2.1⟩, ⟨h2.1, ?_⟩, h3, h4.1⟩
  rw [h2.2]
  decide

/-- C6 counterexample: with the token of the fixture bound to sample ids
that resolve to no row in the (empty-sample) database, the request fails
with the uncaught Python KeyError of the sample_lookup subscript, not with
the 404 NotFound response and its generic message used for a missing
token. -/
theorem C6_counterexample :
    (post_comparison ⟨dbNoSamples, none, 10, 42, 43⟩ reqStrict st0).1
        = .error (.python "KeyError") ∧
    (post_comparison ⟨dbNoSamples, none, 10, 42, 43⟩ reqStrict st0).1
        ≠ .error (.http 404 "No active comparisons found") := by
  decide

/-- C6 amended: a redeemed token naming a sample that cannot be resolved
in the durable store makes the request fail fatally, but with the uncaught
KeyError of the sample_lookup subscript (surfacing as a generic internal
server error), not with the 404 NotFoundError and the generic message that
the missing-token case uses; the token stays consumed and no ledger row is
written. -/
theorem C6_missing_sample_fails_with_keyerror (env : VoteEnv)
    (req : UserComparisonRequest) (st : VoteState) (v m a b : String)
    (hcaller : validCaller env = true)
    (hget : cacheGet st.cache env.now (CacheKey.activeComparison req.token) = some v)
    (hparse : parseTokenValue v = some (m, a, b))
    (hmiss : pairLookup env.db a b a = none) :
    (post_comparison env req st).1 = .error (.python "KeyError") ∧
    (post_comparison env req st).1 ≠ .error (.http 404 "No active comparisons found") ∧
    (post_comparison env req st).2.1.comparisons = st.comparisons ∧
    (post_comparison env req st).2.1.comparison_ranks = st.comparison_ranks ∧
    (∀ t, cacheGet (post_comparison env req st).2.1.cache t
        (CacheKey.activeComparison req.token) = none) := by
  obtain ⟨u, cv, ev0, heq⟩ := post_comparison_eq env req st hcaller
  have hvne : ¬(v = "") := parse_ne_empty hparse
  have hred : (postAfterAuth env req st u cv ev0).1 = .error (.python "KeyError") ∧
      (postAfterAuth env req st u cv ev0).2.1.comparisons = st.comparisons ∧
      (postAfterAuth env req st u cv ev0).2.1.comparison_ranks = st.comparison_ranks := by
    simp [postAfterAuth, cacheGetDel, hget, hvne, hparse, hmiss]
  refine ⟨?_, ?_, ?_, ?_, ?_⟩
  · rw [heq]
    exact hred.1
  · rw [heq, hred.1]
    simp
  · rw [heq]
    exact hred.2.1
  · rw [heq]
    exact hred.2.2
  · intro t
    rw [heq]
    exact postAfterAuth_token_absent env req st u cv ev0 t

/-- C6 witness at the fixture: the empty-sample database makes the vote
fail with KeyError while consuming the token and writing nothing. -/
theorem C6_witness :
    (post_comparison ⟨dbNoSamples, none, 10, 42, 43⟩ reqStrict st0).1
        = .error (.python "KeyError") ∧
    (post_comparison ⟨dbNoSamples, none, 10, 42, 43⟩ reqStrict st0).2.1.comparisons = [] ∧
    cacheGet (post_comparison ⟨dbNoSamples, none, 10, 42, 43⟩ reqStrict st0).2.1.cache 11
        (CacheKey.activeComparison "tok1") = none := by
  have h := C6_missing_sample_fails_with_keyerror ⟨dbNoSamples, none, 10, 42, 43⟩
    reqStrict st0 (mkTokenValue "metric-ext" "aaa" "bbb") "metric-ext" "aaa" "bbb"
    (by decide) (by decide) (by decide) (by decide)
  exact ⟨h.1, h.2.2.1, h.2.2.2.2 11⟩

/-- The batch row loop touches no cache key outside the tokens it mints
from index idx on. -/
theorem processRows_find?_preserved (env : BatchEnv) (metric : MetricRow) (tsid : Nat)
    (rows : List Row) :
    ∀ (idx : Nat) (cache : Cache) (ev : List Event) (acc : List BatchPair) (k : CacheKey),
    (∀ j, idx ≤ j → k ≠ CacheKey.activeComparison (env.tokens j)) →
    (processRows env metric tsid rows idx cache ev acc).2.1.find? (fun e => e.1 == k)
      = cache.find? (fun e => e.1 == k) := by
  induction rows with
  | nil =>
    intro idx cache ev acc k hk
    rfl
  | cons row rest ih =>
    intro idx cache ev acc k hk
    simp only [processRows]
    split
    · rfl
    · split
      · exact ih idx cache ev acc k hk
      · rw [ih (idx + 1) _ _ _ k (fun j hj => hk j (Nat.le_of_succ_le hj))]
        exact find?_key_setEx_other _ _ _ _ _ _ (hk idx (Nat.le_refl idx))

/-- The batch row loop only appends to the trace. -/
theorem processRows_ev_mono (env : BatchEnv) (metric : MetricRow) (tsid : Nat)
    (rows : List Row) :
    ∀ (idx : Nat) (cache : Cache) (ev : List Event) (acc : List BatchPair),
    ∃ tl, (processRows env metric tsid rows idx cache ev acc).2.2 = ev ++ tl := by
  induction rows with
  | nil =>
    intro idx cache ev acc
    exact ⟨[], by simp [processRows]⟩
  | cons row rest ih =>
    intro idx cache ev acc
    simp only [processRows]
    split
    · exact ⟨[], by simp⟩
    · split
      · exact ih idx cache ev acc
      · cases hp : env.settings.USE_PRIORITY_COMPARISON with
        | false =>
          rw [if_neg (by simp)]
          obtain ⟨tl, htl⟩ := ih (idx + 1) _
            (ev ++ [Event.redisSetEx (CacheKey.activeComparison (env.tokens idx)) 3600]) _
          rw [htl]
          exact ⟨[Event.redisSetEx (CacheKey.activeComparison (env.tokens idx)) 3600] ++ tl,
            by simp⟩
        | true =>
          rw [if_pos (by simp)]
          obtain ⟨tl, htl⟩ := ih (idx + 1) _
            ((ev ++ [Event.dbAvgVotes tsid])
              ++ [Event.redisSetEx (CacheKey.activeComparison (env.tokens idx)) 3600]) _
          rw [htl]
          exact ⟨[Event.dbAvgVotes tsid]
              ++ [Event.redisSetEx (CacheKey.activeComparison (env.tokens idx)) 3600] ++ tl,
            by simp⟩

/-- The batch row loop never emits a prepared-statement execution event. -/
theorem processRows_execute_mem (env : BatchEnv) (metric : MetricRow) (tsid : Nat)
    (rows : List Row) :
    ∀ (idx : Nat) (cache : Cache) (ev : List Event) (acc : List BatchPair)
      (n : String) (t c : Nat),
    Event.dbExecutePrepared n t c ∈ (processRows env metric tsid rows idx cache ev acc).2.2 →
    Event.dbExecutePrepared n t c ∈ ev := by
  induction rows with
  | nil =>
    intro idx cache ev acc n t c h
    exact h
  | cons row rest ih =>
    intro idx cache ev acc n t c h
    simp only [processRows] at h
    split at h
    · exact h
    · split at h
      · exact ih idx cache ev acc n t c h
      · have h2 := ih _ _ _ _ n t c h
        rcases List.mem_append.mp h2 with h3 | h3
        · split at h3
          · rcases List.mem_append.mp h3 with h4 | h4
            · exact h4
            · simp at h4
          · exact h3
        · simp at h3

/-- Every pair of a successful batch row loop either was already
accumulated or has its freshly minted token bound in the final cache to
the serialized metric and sample ids with expiry now plus 3600, with the
matching SETEX event in the trace. -/
theorem processRows_binding (env : BatchEnv) (metric : MetricRow) (tsid : Nat)
    (hstd : env.settings.USE_PRIORITY_COMPARISON = false)
    (hinj : ∀ i j, env.tokens i = env.tokens j → i = j) :
    ∀ (rows : List Row) (idx : Nat) (cache : Cache) (ev : List Event) (acc : List BatchPair)
      (resp : BatchResponse) (cache2 : Cache) (ev2 : List Event),
    processRows env metric tsid rows idx cache ev acc = (.ok resp, cache2, ev2) →
    ∀ p ∈ resp.comparisons, p ∈ acc.reverse ∨
      (cache2.find? (fun e => e.1 == CacheKey.activeComparison p.token)
         = some (CacheKey.activeComparison p.token,
             ⟨mkTokenValue metric.external_id (p.samples.getD 0 "") (p.samples.getD 1 ""),
              env.now + 3600⟩)
       ∧ Event.redisSetEx (CacheKey.activeComparison p.token) 3600 ∈ ev2) := by
  intro rows
  induction rows with
  | nil =>
    intro idx cache ev acc resp cache2 ev2 hres p hp
    simp only [processRows, Prod.mk.injEq, Except.ok.injEq] at hres
    obtain ⟨h1, h2, h3⟩ := hres
    rw [← h1] at hp
    exact Or.inl hp
  | cons row rest ih =>
    intro idx cache ev acc resp cache2 ev2 hres p hp
    simp only [processRows] at hres
    split at hres
    · simp at hres
    · rw [if_neg (by simp [hstd])] at hres
      rw [if_neg (by simp [hstd])] at hres
      have hrec := ih (idx + 1) _ _ _ resp cache2 ev2 hres p hp
      rcases hrec with hacc | hbind
      · rw [List.reverse_cons] at hacc
        rcases List.mem_append.mp hacc with h4 | h4
        · exact Or.inl h4
        · right
          have hpe : p = ⟨env.tokens idx, metric.external_id,
              [row.getD 0 "", row.getD 2 ""], row.getD 4 "",
              [⟨row.getD 0 "", [⟨"gltf_scene", env.settings.EXTERNAL_OBJECT_BUCKET, row.getD 1 ""⟩]⟩,
               ⟨row.getD 2 "", [⟨"gltf_scene", env.settings.EXTERNAL_OBJECT_BUCKET, row.getD 3 ""⟩]⟩]⟩ := by
            simpa using h4
          have hk : ∀ j, idx + 1 ≤ j →
              CacheKey.activeComparison (env.tokens idx)
                ≠ CacheKey.activeComparison (env.tokens j) := by
            intro j hj hcontra
            have : env.tokens idx = env.tokens j := by
              injection hcontra
            have := hinj idx j this
            omega
          have hcache2 : cache2.find?
              (fun e => e.1 == CacheKey.activeComparison (env.tokens idx))
              = some (CacheKey.activeComparison (env.tokens idx),
                  ⟨mkTokenValue metric.external_id (row.getD 0 "") (row.getD 2 ""),
                   env.now + 3600⟩) := by
            have hres2 := congrArg (fun r => r.2.1) hres
            simp only at hres2
            rw [← hres2]
            rw [processRows_find?_preserved env metric tsid rest (idx + 1) _ _ _ _ hk]
            unfold cacheSetEx
            exact List.find?_cons_of_pos _ (by simp)
          have hev : Event.redisSetEx (CacheKey.activeComparison (env.tokens idx)) 3600 ∈ ev2 := by
            have hres3 := congrArg (fun r => r.2.2) hres
            simp only at hres3
            rw [← hres3]
            obtain ⟨tl, htl⟩ := processRows_ev_mono env metric tsid rest (idx + 1)
              (cacheSetEx cache env.now 3600 (CacheKey.activeComparison (env.tokens idx))
                (mkTokenValue metric.external_id (row.getD 0 "") (row.getD 2 "")))
              (ev ++ [Event.redisSetEx (CacheKey.activeComparison (env.tokens idx)) 3600])
              (⟨env.tokens idx, metric.external_id, [row.getD 0 "", row.getD 2 ""], row.getD 4 "",
                [⟨row.getD 0 "", [⟨"gltf_scene", env.settings.EXTERNAL_OBJECT_BUCKET, row.getD 1 ""⟩]⟩,
                 ⟨row.getD 2 "", [⟨"gltf_scene", env.settings.EXTERNAL_OBJECT_BUCKET, row.getD 3 ""⟩]⟩]⟩ :: acc)
            rw [htl]
            simp
          rw [hpe]
          exact ⟨hcache2, hev⟩
      · exact Or.inr hbind

/-- Any prepared-statement execution event of the post-gate batch body
either was already in the trace or carries the resolved test set id. -/
theorem batchAfterAuth_execute_mem (env : BatchEnv) (request : NewComparisonBatchRequest)
    (cache : Cache) (tid : Nat) (ev : List Event) (n : String) (t c : Nat)
    (h : Event.dbExecutePrepared n t c ∈ (batchAfterAuth env request cache tid ev).2.2) :
    Event.dbExecutePrepared n t c ∈ ev ∨ t = tid := by
  simp only [batchAfterAuth] at h
  split at h
  · exact Or.inl h
  · split at h
    · rcases List.mem_append.mp h with h1 | h1
      · exact Or.inl h1
      · simp at h1
    · split at h
      · rcases List.mem_append.mp h with h1 | h1
        · rcases List.mem_append.mp h1 with h2 | h2
          · exact Or.inl h2
          · simp at h2
        · simp at h1
          exact Or.inr h1.2.1
      · have h2 := processRows_execute_mem env _ tid _ _ _ _ _ n t c h
        rcases List.mem_append.mp h2 with h1 | h1
        · rcases List.mem_append.mp h1 with h3 | h3
          · exact Or.inl h3
          · simp at h3
        · simp at h1
          exact Or.inr h1.2.1

/-- C2 counterexample: at the fixture, a batch request with batch_size 11
is rejected with 406, yet the trace of the request contains a database
query (the test-set lookup) executed before the rejection, refuting the
claim that no database query of any kind precedes the rejection. -/
theorem C2_counterexample :
    (get_comparison_batch batchEnvAnon ⟨"metric-ext", 11⟩ []).1
        = .error (.http 406 "Invalid batch size") ∧
    Event.dbSelectTestSetId "Unauthenticated Test Set"
        ∈ (get_comparison_batch batchEnvAnon ⟨"metric-ext", 11⟩ []).2.2 ∧
    (Event.dbSelectTestSetId "Unauthenticated Test Set").isDbQuery = true := by
  decide

/-- C2 amended: a batch request with batch_size above 10 is rejected with
406 before the metric lookup, the pairing query and any token minting, but
only after the test-set lookup (and, for an authenticated caller, the user
lookup) and the session-header processing have already queried the
database; the full trace up to the rejection is exactly those preliminary
accesses. -/
theorem C2_oversize_rejected_after_preliminary_lookups :
    (∀ (env : BatchEnv) (request : NewComparisonBatchRequest) (cache : Cache) (tid : Nat),
      env.user_id = none →
      findTestSetId env.db "Unauthenticated Test Set" = some tid →
      request.batch_size > MAX_BATCH_SIZE →
      (get_comparison_batch env request cache).1 = .error (.http 406 "Invalid batch size") ∧
      (get_comparison_batch env request cache).2.1 = cache ∧
      (get_comparison_batch env request cache).2.2
        = [Event.dbSelectTestSetId "Unauthenticated Test Set", Event.sessionHeaders] ∧
      (Event.dbSelectTestSetId "Unauthenticated Test Set").isDbQuery = true) ∧
    (∀ (env : BatchEnv) (request : NewComparisonBatchRequest) (cache : Cache) (tid : Nat)
       (uid : String) (u : UserRow),
      env.user_id = some uid →
      findTestSetId env.db "Authenticated Test Set" = some tid →
      env.db.users.find? (fun x => x.external_id == uid) = some u →
      request.batch_size > MAX_BATCH_SIZE →
      (get_comparison_batch env request cache).1 = .error (.http 406 "Invalid batch size") ∧
      (get_comparison_batch env request cache).2.1 = cache ∧
      (get_comparison_batch env request cache).2.2
        = [Event.dbSelectTestSetId "Authenticated Test Set", Event.dbSelectUser uid,
           Event.sessionHeaders]) := by
  constructor
  · intro env request cache tid hanon hts hsize
    have hgt : request.batch_size > MAX_BATCH_SIZE := hsize
    refine ⟨?_, ?_, ?_, rfl⟩ <;>
      simp [get_comparison_batch, hanon, hts, batchAfterAuth, hgt]
  · intro env request cache tid uid u hauth hts hu hsize
    have hgt : request.batch_size > MAX_BATCH_SIZE := hsize
    simp [get_comparison_batch, hauth, hts, hu, batchAfterAuth, hgt]

/-- C2 amended witness at the fixture. -/
theorem C2_witness :
    (get_comparison_batch batchEnvAnon ⟨"metric-ext", 11⟩ []).1
        = .error (.http 406 "Invalid batch size") ∧
    (get_comparison_batch batchEnvAnon ⟨"metric-ext", 11⟩ []).2.1 = [] ∧
    (get_comparison_batch batchEnvAnon ⟨"metric-ext", 11⟩ []).2.2
        = [Event.dbSelectTestSetId "Unauthenticated Test Set", Event.sessionHeaders] := by
  have h := C2_oversize_rejected_after_preliminary_lookups.1 batchEnvAnon
    ⟨"metric-ext", 11⟩ [] 1 (by decide) (by decide) (by decide)
  exact ⟨h.1, h.2.1, h.2.2.1⟩

/-- Database fixture without any test set row. -/
def dbNoTs : Db := ⟨[], [userNoVote, userVote], [metric1], [sampleA, sampleB]⟩

/-- Anonymous batch environment fixture over the test-set-free database. -/
def batchEnvNoTs : BatchEnv := ⟨⟨false, "bucket"⟩, dbNoTs, none, 10, tokenStream, fun _ => .ok []⟩

/-- Anonymous batch environment fixture whose prepared statements all fail. -/
def batchEnvFail : BatchEnv := ⟨⟨false, "bucket"⟩, testDb, none, 10, tokenStream, fun _ => .error ()⟩

/-- Priority-mode batch environment fixture whose priority plan fails while
the standard plan would succeed. -/
def batchEnvPrioFail : BatchEnv :=
  ⟨⟨true, "bucket"⟩, testDb, none, 10, tokenStream,
   fun n => if n = "comparison_batch_query" then .ok [["aaa", "ka", "bbb", "kb", "build it"]] else .error ()⟩

/-- C7: the batch operation fails 400 on an unknown metric id, 406 on
batch_size above 10, 500 when the default test set is missing, and 500
when the configured strategy plan fails to execute; a plan failure fails
the whole request with the cache unchanged (no partial batch, no token
minted) and executes only the configured plan, never the other strategy. -/
theorem C7_batch_error_paths :
    (∀ (env : BatchEnv) (request : NewComparisonBatchRequest) (cache : Cache) (tid : Nat),
      env.user_id = none →
      findTestSetId env.db "Unauthenticated Test Set" = some tid →
      request.batch_size ≤ MAX_BATCH_SIZE →
      findMetric env.db request.metric_id = none →
      (get_comparison_batch env request cache).1 = .error (.http 400 "Invalid metric id") ∧
      (get_comparison_batch env request cache).2.1 = cache) ∧
    (∀ (env : BatchEnv) (request : NewComparisonBatchRequest) (cache : Cache) (tid : Nat),
      env.user_id = none →
      findTestSetId env.db "Unauthenticated Test Set" = some tid →
      request.batch_size > MAX_BATCH_SIZE →
      (get_comparison_batch env request cache).1 = .error (.http 406 "Invalid batch size") ∧
      (get_comparison_batch env request cache).2.1 = cache) ∧
    (∀ (env : BatchEnv) (request : NewComparisonBatchRequest) (cache : Cache),
      env.user_id = none →
      findTestSetId env.db "Unauthenticated Test Set" = none →
      (get_comparison_batch env request cache).1
        = .error (.http 500 "Default unauthenticated test set not found") ∧
      (get_comparison_batch env request cache).2.1 = cache) ∧
    (∀ (env : BatchEnv) (request : NewComparisonBatchRequest) (cache : Cache)
       (tid : Nat) (mrow : MetricRow),
      env.user_id = none →
      findTestSetId env.db "Unauthenticated Test Set" = some tid →
      request.batch_size ≤ MAX_BATCH_SIZE →
      findMetric env.db request.metric_id = some mrow →
      env.settings.USE_PRIORITY_COMPARISON = false →
      env.queryResult "comparison_batch_query" = .error () →
      (get_comparison_batch env request cache).1
        = .error (.http 500
            ("Failed to retrieve comparison batch using \x27comparison_batch_query\x27")) ∧
      (get_comparison_batch env request cache).2.1 = cache ∧
      (∀ n t c, Event.dbExecutePrepared n t c ∈ (get_comparison_batch env request cache).2.2 →
        n = "comparison_batch_query")) ∧
    (∀ (env : BatchEnv) (request : NewComparisonBatchRequest) (cache : Cache)
       (tid : Nat) (mrow : MetricRow),
      env.user_id = none →
      findTestSetId env.db "Unauthenticated Test Set" = some tid →
      request.batch_size ≤ MAX_BATCH_SIZE →
      findMetric env.db request.metric_id = some mrow →
      env.settings.USE_PRIORITY_COMPARISON = true →
      env.queryResult "comparison_batch_query_priority" = .error () →
      (get_comparison_batch env request cache).1
        = .error (.http 500
            ("Failed to retrieve comparison batch using \x27comparison_batch_query_priority\x27")) ∧
      (get_comparison_batch env request cache).2.1 = cache ∧
      (∀ n t c, Event.dbExecutePrepared n t c ∈ (get_comparison_batch env request cache).2.2 →
        n = "comparison_batch_query_priority")) := by
  refine ⟨?_, ?_, ?_, ?_, ?_⟩
  · intro env request cache tid hanon hts hsize hmet
    have hns : ¬(request.batch_size > MAX_BATCH_SIZE) := by omega
    constructor <;> simp [get_comparison_batch, hanon, hts, batchAfterAuth, hns, hmet]
  · intro env request cache tid hanon hts hsize
    constructor <;> simp [get_comparison_batch, hanon, hts, batchAfterAuth, hsize]
  · intro env request cache hanon hts
    constructor <;> simp [get_comparison_batch, hanon, hts]
  · intro env request cache tid mrow hanon hts hsize hmet hstd hq
    have hns : ¬(request.batch_size > MAX_BATCH_SIZE) := by omega
    have htrace : (get_comparison_batch env request cache).2.2
        = [Event.dbSelectTestSetId "Unauthenticated Test Set", Event.sessionHeaders,
           Event.dbSelectMetric request.metric_id,
           Event.dbExecutePrepared "comparison_batch_query" tid request.batch_size] := by
      simp [get_comparison_batch, hanon, hts, batchAfterAuth, hns, hmet, hstd, hq]
    refine ⟨?_, ?_, ?_⟩
    · simp [get_comparison_batch, hanon, hts, batchAfterAuth, hns, hmet, hstd, hq]
    · simp [get_comparison_batch, hanon, hts, batchAfterAuth, hns, hmet, hstd, hq]
    · intro n t c hmem
      rw [htrace] at hmem
      simp at hmem
      exact hmem.1
  · intro env request cache tid mrow hanon hts hsize hmet hprio hq
    have hns : ¬(request.batch_size > MAX_BATCH_SIZE) := by omega
    have htrace : (get_comparison_batch env request cache).2.2
        = [Event.dbSelectTestSetId "Unauthenticated Test Set", Event.sessionHeaders,
           Event.dbSelectMetric request.metric_id,
           Event.dbExecutePrepared "comparison_batch_query_priority" tid request.batch_size] := by
      simp [get_comparison_batch, hanon, hts, batchAfterAuth, hns, hmet, hprio, hq]
    refine ⟨?_, ?_, ?_⟩
    · simp [get_comparison_batch, hanon, hts, batchAfterAuth, hns, hmet, hprio, hq]
    · simp [get_comparison_batch, hanon, hts, batchAfterAuth, hns, hmet, hprio, hq]
    · intro n t c hmem
      rw [htrace] at hmem
      simp at hmem
      exact hmem.1

/-- C7 witness at the fixtures: each error path observed concretely. -/
theorem C7_witness :
    ((get_comparison_batch batchEnvAnon ⟨"bad-metric", 2⟩ []).1
        = .error (.http 400 "Invalid metric id")) ∧
    ((get_comparison_batch batchEnvAnon ⟨"metric-ext", 11⟩ []).1
        = .error (.http 406 "Invalid batch size")) ∧
    ((get_comparison_batch batchEnvNoTs ⟨"metric-ext", 2⟩ []).1
        = .error (.http 500 "Default unauthenticated test set not found")) ∧
    ((get_comparison_batch batchEnvFail ⟨"metric-ext", 2⟩ []).1
        = .error (.http 500
            ("Failed to retrieve comparison batch using \x27comparison_batch_query\x27")) ∧
     (get_comparison_batch batchEnvFail ⟨"metric-ext", 2⟩ []).2.1 = []) ∧
    ((get_comparison_batch batchEnvPrioFail ⟨"metric-ext", 2⟩ []).1
        = .error (.http 500
            ("Failed to retrieve comparison batch using \x27comparison_batch_query_priority\x27")) ∧
     (get_comparison_batch batchEnvPrioFail ⟨"metric-ext", 2⟩ []).2.1 = []) := by
  have h := C7_batch_error_paths
  have h1 := h.1 batchEnvAnon ⟨"bad-metric", 2⟩ [] 1 (by decide) (by decide) (by decide) (by decide)
  have h2 := h.2.1 batchEnvAnon ⟨"metric-ext", 11⟩ [] 1 (by decide) (by decide) (by decide)
  have h3 := h.2.2.1 batchEnvNoTs ⟨"metric-ext", 2⟩ [] (by decide) (by decide)
  have h4 := h.2.2.2.1 batchEnvFail ⟨"metric-ext", 2⟩ [] 1 metric1
    (by decide) (by decide) (by decide) (by decide) (by decide) (by decide)
  have h5 := h.2.2.2.2 batchEnvPrioFail ⟨"metric-ext", 2⟩ [] 1 metric1
    (by decide) (by decide) (by decide) (by decide) (by decide) (by decide)
  exact ⟨h1.1, h2.1, h3.1, ⟨h4.1, h4.2.1⟩, ⟨h5.1, h5.2.1⟩⟩

/-- An entry found at its key reads as absent from its expiry instant on. -/
theorem cacheGet_none_of_expired {c : Cache} {k : CacheKey} {entry : CacheEntry}
    (h : c.find? (fun e => e.1 == k) = some (k, entry)) {t : Nat}
    (ht : entry.expiresAt ≤ t) : cacheGet c t k = none := by
  unfold cacheGet
  rw [h]
  simp only
  rw [if_neg (by omega)]

/-- The fixture token stream is injective. -/
theorem tokenStream_inj : ∀ i j, tokenStream i = tokenStream j → i = j := by
  intro i j h
  have hd : ('t' :: List.replicate i 'x') = ('t' :: List.replicate j 'x') :=
    congrArg String.data h
  have hl := congrArg List.length hd
  simpa using hl

/-- C8: in a successful standard-strategy batch, every returned pair has a
fresh token whose cache entry binds it to exactly the request metric and
the two sample ids of the pair, stored with TTL exactly 3600 before the
pair is returned (the SETEX event with ttl 3600 is in the trace), and the
token reads as absent at every instant from 3600 seconds after issuance
on. -/
theorem C8_token_minted_per_pair (env : BatchEnv) (request : NewComparisonBatchRequest)
    (cache : Cache) (tid : Nat) (mrow : MetricRow) (rows : List Row)
    (resp : BatchResponse) (cache2 : Cache) (ev2 : List Event)
    (hanon : env.user_id = none)
    (hts : findTestSetId env.db "Unauthenticated Test Set" = some tid)
    (hsize : request.batch_size ≤ MAX_BATCH_SIZE)
    (hmet : findMetric env.db request.metric_id = some mrow)
    (hstd : env.settings.USE_PRIORITY_COMPARISON = false)
    (hq : env.queryResult "comparison_batch_query" = .ok rows)
    (hinj : ∀ i j, env.tokens i = env.tokens j → i = j)
    (hres : get_comparison_batch env request cache = (.ok resp, cache2, ev2)) :
    ∀ p ∈ resp.comparisons,
      cache2.find? (fun e => e.1 == CacheKey.activeComparison p.token)
        = some (CacheKey.activeComparison p.token,
            ⟨mkTokenValue mrow.external_id (p.samples.getD 0 "") (p.samples.getD 1 ""),
             env.now + 3600⟩) ∧
      Event.redisSetEx (CacheKey.activeComparison p.token) 3600 ∈ ev2 ∧
      (∀ t2, env.now + 3600 ≤ t2 →
        cacheGet cache2 t2 (CacheKey.activeComparison p.token) = none) := by
  have hns : ¬(request.batch_size > MAX_BATCH_SIZE) := by omega
  have hred : get_comparison_batch env request cache
      = processRows env mrow tid rows 0 cache
          ([Event.dbSelectTestSetId "Unauthenticated Test Set", Event.sessionHeaders]
            ++ [Event.dbSelectMetric request.metric_id]
            ++ [Event.dbExecutePrepared "comparison_batch_query" tid request.batch_size])
          [] := by
    simp [get_comparison_batch, hanon, hts, batchAfterAuth, hns, hmet, hstd, hq]
  rw [hred] at hres
  intro p hp
  have hb := processRows_binding env mrow tid hstd hinj rows 0 cache _ [] resp cache2 ev2
    hres p hp
  rcases hb with habs | hbind
  · simp at habs
  · refine ⟨hbind.1, hbind.2, ?_⟩
    intro t2 ht2
    exact cacheGet_none_of_expired hbind.1 ht2

/-- The pair returned by the one-row fixture batch. -/
def pairT : BatchPair := ⟨"t", "metric-ext", ["aaa", "bbb"], "build it",
  [⟨"aaa", [⟨"gltf_scene", "bucket", "ka"⟩]⟩, ⟨"bbb", [⟨"gltf_scene", "bucket", "kb"⟩]⟩]⟩

/-- The cache produced by the one-row fixture batch. -/
def cacheT : Cache :=
  [(CacheKey.activeComparison "t", ⟨mkTokenValue "metric-ext" "aaa" "bbb", 3610⟩)]

/-- The trace produced by the one-row fixture batch. -/
def evT : List Event :=
  [Event.dbSelectTestSetId "Unauthenticated Test Set", Event.sessionHeaders,
   Event.dbSelectMetric "metric-ext",
   Event.dbExecutePrepared "comparison_batch_query" 1 2,
   Event.redisSetEx (CacheKey.activeComparison "t") 3600]

/-- C8 witness at the one-row fixture: the returned pair has its token
bound with expiry 3610 = 10 + 3600, the SETEX 3600 event is in the trace,
and the token reads as absent at instant 3610. -/
theorem C8_witness :
    cacheT.find? (fun e => e.1 == CacheKey.activeComparison pairT.token)
      = some (CacheKey.activeComparison pairT.token,
          ⟨mkTokenValue "metric-ext" (pairT.samples.getD 0 "") (pairT.samples.getD 1 ""), 3610⟩) ∧
    Event.redisSetEx (CacheKey.activeComparison pairT.token) 3600 ∈ evT ∧
    cacheGet cacheT 3610 (CacheKey.activeComparison pairT.token) = none := by
  have h := C8_token_minted_per_pair batchEnvOneRow ⟨"metric-ext", 2⟩ [] 1 metric1
    [["aaa", "ka", "bbb", "kb", "build it"]] ⟨[pairT]⟩ cacheT evT
    (by decide) (by decide) (by decide) (by decide) (by decide) (by decide)
    tokenStream_inj (by decide) pairT (by decide)
  exact ⟨h.1, h.2.1, h.2.2 3610 (by decide)⟩

/-- C10: the batch request carries no test-set id; the handler derives the
test set from the authentication state alone by looking up the fixed name
Unauthenticated Test Set for anonymous callers and Authenticated Test Set
for authenticated callers, fails 500 before any pairing query when that
row is absent and 404 before any pairing query when the authenticated
user row is absent, and every executed pairing query carries exactly the
test set id found under the auth-determined fixed name. -/
theorem C10_test_set_from_auth_state :
    (∀ (env : BatchEnv) (request : NewComparisonBatchRequest) (cache : Cache),
      env.user_id = none →
      findTestSetId env.db "Unauthenticated Test Set" = none →
      (get_comparison_batch env request cache).1
        = .error (.http 500 "Default unauthenticated test set not found") ∧
      (get_comparison_batch env request cache).2.2
        = [Event.dbSelectTestSetId "Unauthenticated Test Set"]) ∧
    (∀ (env : BatchEnv) (request : NewComparisonBatchRequest) (cache : Cache) (uid : String),
      env.user_id = some uid →
      findTestSetId env.db "Authenticated Test Set" = none →
      (get_comparison_batch env request cache).1
        = .error (.http 500 "Default authenticated test set not found") ∧
      (get_comparison_batch env request cache).2.2
        = [Event.dbSelectTestSetId "Authenticated Test Set"]) ∧
    (∀ (env : BatchEnv) (request : NewComparisonBatchRequest) (cache : Cache)
       (uid : String) (tid : Nat),
      env.user_id = some uid →
      findTestSetId env.db "Authenticated Test Set" = some tid →
      env.db.users.find? (fun x => x.external_id == uid) = none →
      (get_comparison_batch env request cache).1
        = .error (.http 404 "Authenticated user not found") ∧
      (get_comparison_batch env request cache).2.2
        = [Event.dbSelectTestSetId "Authenticated Test Set", Event.dbSelectUser uid]) ∧
    (∀ (env : BatchEnv) (request : NewComparisonBatchRequest) (cache : Cache)
       (n : String) (t c : Nat),
      Event.dbExecutePrepared n t c ∈ (get_comparison_batch env request cache).2.2 →
      some t = findTestSetId env.db
        (match env.user_id with
         | none => "Unauthenticated Test Set"
         | some _ => "Authenticated Test Set")) := by
  refine ⟨?_, ?_, ?_, ?_⟩
  · intro env request cache hanon hts
    constructor <;> simp [get_comparison_batch, hanon, hts]
  · intro env request cache uid hauth hts
    constructor <;> simp [get_comparison_batch, hauth, hts]
  · intro env request cache uid tid hauth hts hu
    constructor <;> simp [get_comparison_batch, hauth, hts, hu]
  · intro env request cache n t c hmem
    cases hu : env.user_id with
    | none =>
      simp only [hu]
      cases hts : findTestSetId env.db "Unauthenticated Test Set" with
      | none =>
        have htr : (get_comparison_batch env request cache).2.2
            = [Event.dbSelectTestSetId "Unauthenticated Test Set"] := by
          simp [get_comparison_batch, hu, hts]
        rw [htr] at hmem
        simp at hmem
      | some tid =>
        have hredEq : get_comparison_batch env request cache
            = batchAfterAuth env request cache tid
                [Event.dbSelectTestSetId "Unauthenticated Test Set", Event.sessionHeaders] := by
          simp [get_comparison_batch, hu, hts]
        rw [hredEq] at hmem
        rcases batchAfterAuth_execute_mem env request cache tid _ n t c hmem with h1 | h1
        · simp at h1
        · rw [h1]
    | some uid =>
      simp only [hu]
      cases hts : findTestSetId env.db "Authenticated Test Set" with
      | none =>
        have htr : (get_comparison_batch env request cache).2.2
            = [Event.dbSelectTestSetId "Authenticated Test Set"] := by
          simp [get_comparison_batch, hu, hts]
        rw [htr] at hmem
        simp at hmem
      | some tid =>
        cases husr : env.db.users.find? (fun x => x.external_id == uid) with
        | none =>
          have htr : (get_comparison_batch env request cache).2.2
              = [Event.dbSelectTestSetId "Authenticated Test Set", Event.dbSelectUser uid] := by
            simp [get_comparison_batch, hu, hts, husr]
          rw [htr] at hmem
          simp at hmem
        | some usr =>
          have hredEq : get_comparison_batch env request cache
              = batchAfterAuth env request cache tid
                  [Event.dbSelectTestSetId "Authenticated Test Set", Event.dbSelectUser uid,
                   Event.sessionHeaders] := by
            simp [get_comparison_batch, hu, hts, husr]
          rw [hredEq] at hmem
          rcases batchAfterAuth_execute_mem env request cache tid _ n t c hmem with h1 | h1
          · simp at h1
          · rw [h1]

/-- C10 witness at the fixtures: the missing-test-set 500, the
missing-user 404, and a pairing query carrying the id looked up under the
auth-determined name. -/
theorem C10_witness :
    ((get_comparison_batch batchEnvNoTs ⟨"metric-ext", 2⟩ []).1
        = .error (.http 500 "Default unauthenticated test set not found")) ∧
    ((get_comparison_batch ⟨⟨false, "bucket"⟩, testDb, some "ghost", 10, tokenStream,
        fun _ => .ok []⟩ ⟨"metric-ext", 2⟩ []).1
        = .error (.http 404 "Authenticated user not found")) ∧
    some 1 = findTestSetId testDb "Unauthenticated Test Set" := by
  have h := C10_test_set_from_auth_state
  have h1 := h.1 batchEnvNoTs ⟨"metric-ext", 2⟩ [] (by decide) (by decide)
  have h2 := h.2.2.1 ⟨⟨false, "bucket"⟩, testDb, some "ghost", 10, tokenStream,
    fun _ => .ok []⟩ ⟨"metric-ext", 2⟩ [] "ghost" 2 (by decide) (by decide) (by decide)
  have h3 := h.2.2.2 batchEnvOneRow ⟨"metric-ext", 2⟩ [] "comparison_batch_query" 1 2
    (by decide)
  exact ⟨h1.1, h2.1, h3⟩
